import Mathlib

/-!
# Verification of the createPhil core against its specification

Shallow embedding of the createPhil repository's core subsystems:

* the layer orchestrator (`public/app.js`, and its variant with per-trait
  buttons): canonical z-order table, per-layer isolated generation,
  composition of surviving artifacts;
* the region clipper `clipPolylineToPath` (eyes trait);
* the spiral curve generators `genSpiralPoints` (eyes trait) and
  `generateArmPoints` (bg trait);
* the Voronoi site sampler `generatePointsInPath` (teeth trait);
* the teeth trait's clipper-vs-mask mode selection;
* the SVGO optimization client (`svgoClient.js`) and its caller `save()`;
* the nose and wings trait generators' error handling.

Conventions of the embedding:

* JavaScript numbers are idealized as exact rationals (`ℚ`); `Math.PI` is
  embedded as the exact rational value of the IEEE-754 double `Math.PI`.
* Transcendental runtime functions (`Math.sin`, `Math.cos`, `Math.sqrt`,
  `Math.exp`, `Math.log`, `Math.hypot`) are parameters of the embedding
  (fields of `MathFns`, or explicit function arguments): the theorems hold
  for every implementation of them, exactly as the source code's behaviour
  is parametric in the float library except through these calls.
* The browser's ambient randomness (`window.crypto.getRandomValues`, reached
  through `getSecureRandomNumber`) is made explicit as a stream `ℕ → ℚ`
  together with a cursor that is threaded through each draw, in source
  order.  `Math.random` in the teeth sampler is modelled the same way.
* Browser DOM/canvas calls (`isPointInPath` rasterization, `getTotalLength`,
  `getPointAtLength`, `getBBox`) are parameters: the point-in-path oracle is
  an arbitrary `ℚ → ℚ → Bool`, path sampling is an arbitrary `ℚ → Pt`.
* Fallible operations (`fetch`, thrown exceptions) are `Except`/sum values.
-/

set_option maxRecDepth 10000

namespace CreatePhil

/-- The canonical z-order table: the `id` fields of the `LAYERS` array of
`public/app.js`, in declaration order (bg → wings → phil → spikes → eyes →
nose → teeth → top). -/
def LAYERS : List String := ["bg", "wings", "phil", "spikes", "eyes", "nose", "teeth", "top"]

/-- The `name` field of the `LAYERS` entry for a given layer id. -/
def layerName (id : String) : String :=
  if id = "bg" then "Background"
  else if id = "wings" then "Wings"
  else if id = "phil" then "Phil"
  else if id = "spikes" then "Spikes"
  else if id = "eyes" then "Eyes"
  else if id = "nose" then "Nose"
  else if id = "teeth" then "Teeth"
  else if id = "top" then "Top"
  else id

/-- `orderByCanonical` from `app.js`:
`LAYERS.map(l => l.id).filter(id => want.has(id))` where `want` is the set of
requested ids. -/
def orderByCanonical (ids : List String) : List String :=
  LAYERS.filter (fun id => ids.contains id)

/-- Outcome of dynamically importing a layer module and calling its trait
generator: the module may lack a `generateTrait` function, or the call (or
the import itself) may throw, or it resolves with an SVG string. -/
inductive LayerOutcome where
  | ok (svg : String)
  | noGenFn
  | err (msg : String)
deriving Repr, DecidableEq

/-- The per-layer loop body of `generateLayers` (app.js, per-trait variant):
walks the canonically ordered id list; skips unknown ids; skips `phil` when
the global `ClipperLib` is absent (with a log line); catches a missing
`generateTrait` or a thrown error (log line, layer omitted); on success
records the artifact and a success log line.  Returns the surviving
artifacts (id paired with its SVG) in walk order, and the log lines. -/
def genLoop (hasClipperGlobal : Bool) (gen : String → LayerOutcome) :
    List String → List (String × String) × List String
  | [] => ([], [])
  | id :: rest =>
      if !LAYERS.contains id then genLoop hasClipperGlobal gen rest
      else if id = "phil" && !hasClipperGlobal then
        let r := genLoop hasClipperGlobal gen rest
        (r.1, "Phil skipped: ClipperLib not found." :: r.2)
      else
        match gen id with
        | .noGenFn =>
            let r := genLoop hasClipperGlobal gen rest
            (r.1, (layerName id ++ ": generateTrait() not found. Skipped.") :: r.2)
        | .err m =>
            let r := genLoop hasClipperGlobal gen rest
            (r.1, (layerName id ++ " failed: " ++ m) :: r.2)
        | .ok svg =>
            let r := genLoop hasClipperGlobal gen rest
            ((id, svg) :: r.1, (layerName id ++ " generated.") :: r.2)

/-- `generateLayers(layerIds)` from app.js: canonical reordering followed by
the isolated per-layer generation loop.  Total: every failure mode of a
single layer is caught inside the loop, so the orchestrator itself always
returns. -/
def generateLayers (hasClipperGlobal : Bool) (gen : String → LayerOutcome)
    (layerIds : List String) : List (String × String) × List String :=
  genLoop hasClipperGlobal gen (orderByCanonical layerIds)

/-- `compose(hrefs)` from app.js: stacks the hrefs, in the order given, as
`<image>` elements of one 420×420 SVG. -/
def compose (hrefs : List String) : String :=
  "<svg xmlns=\"http://www.w3.org/2000/svg\" width=\"420\" height=\"420\" viewBox=\"0 0 420 420\">"
    ++ String.join (hrefs.map (fun href =>
          "<image href=\"" ++ href ++ "\" x=\"0\" y=\"0\" width=\"420\" height=\"420\"/>"))
    ++ "</svg>"

/-- A requested layer survives iff it is not the phil-without-Clipper case
and its generator resolved with an SVG. -/
def survives (hasClipperGlobal : Bool) (gen : String → LayerOutcome) (id : String) : Bool :=
  (!(id = "phil" && !hasClipperGlobal)) &&
    (match gen id with | .ok _ => true | _ => false)

theorem genLoop_fst_map (h : Bool) (gen : String → LayerOutcome) :
    ∀ l : List String,
      ((genLoop h gen l).1.map Prod.fst) =
        l.filter (fun id => LAYERS.contains id && survives h gen id) := by
  intro l
  induction l with
  | nil => rfl
  | cons id rest ih =>
    cases hmem : LAYERS.contains id with
    | false =>
        simp only [genLoop, hmem, Bool.not_false, if_true, ih, List.filter_cons,
          Bool.false_and]
        simp
    | true =>
      cases hphil : (id = "phil" : Bool) && !h with
      | true =>
          have hs : survives h gen id = false := by
            simp only [survives, hphil, Bool.not_true, Bool.false_and]
          simp only [genLoop, hmem, Bool.not_true, Bool.false_eq_true, if_false, hphil,
            if_true, ih, List.filter_cons, hs, Bool.and_false, Bool.false_eq_true]
      | false =>
          cases hg : gen id with
          | ok svg =>
              have hs : survives h gen id = true := by
                simp only [survives, hg, hphil, Bool.not_false, Bool.and_true]
              simp only [genLoop, hmem, Bool.not_true, Bool.false_eq_true, if_false, hphil,
                hg, ih, List.filter_cons, hs, hmem, Bool.and_true, List.map_cons]
              simp
          | noGenFn =>
              have hs : survives h gen id = false := by
                simp only [survives, hg, Bool.and_false]
              simp only [genLoop, hmem, Bool.not_true, Bool.false_eq_true, if_false, hphil,
                hg, ih, List.filter_cons, hs, Bool.and_false, Bool.false_eq_true, if_false]
          | err m =>
              have hs : survives h gen id = false := by
                simp only [survives, hg, Bool.and_false]
              simp only [genLoop, hmem, Bool.not_true, Bool.false_eq_true, if_false, hphil,
                hg, ih, List.filter_cons, hs, Bool.and_false, Bool.false_eq_true, if_false]

theorem orderByCanonical_set_invariant (ids1 ids2 : List String)
    (hset : ∀ x, x ∈ ids1 ↔ x ∈ ids2) :
    orderByCanonical ids1 = orderByCanonical ids2 := by
  unfold orderByCanonical
  apply List.filter_congr
  intro x _
  apply Bool.eq_iff_iff.mpr
  simp only [List.contains, List.elem_iff]
  exact hset x

theorem genLoop_err_log (h : Bool) (gen : String → LayerOutcome) (id0 : String) (m : String)
    (hErr : gen id0 = .err m) (hguard : ¬(id0 = "phil" ∧ h = false)) :
    ∀ l : List String, id0 ∈ l → LAYERS.contains id0 = true →
      (layerName id0 ++ " failed: " ++ m) ∈ (genLoop h gen l).2 := by
  intro l
  induction l with
  | nil => intro hx; cases hx
  | cons id rest ih =>
    intro hx hc
    rcases List.mem_cons.mp hx with heq | hx'
    · subst heq
      have hphil : (decide (id0 = "phil") && !h) = false := by
        by_cases hp : id0 = "phil"
        · have hh : h = true := by
            cases h
            · exact absurd ⟨hp, rfl⟩ hguard
            · rfl
          simp [hh]
        · simp [hp]
      simp only [genLoop, hc, Bool.not_true, Bool.false_eq_true, if_false, hphil, hErr]
      exact List.mem_cons_self _ _
    · have hrec := ih hx' hc
      by_cases hmem : id ∈ LAYERS
      · by_cases hphil2 : id = "phil" ∧ h = false
        · obtain ⟨hp, hh⟩ := hphil2
          subst hp
          subst hh
          simp only [genLoop] at *
          simp [hmem]
          right
          exact hrec
        · cases hg : gen id with
          | ok svg =>
              simp only [genLoop] at *
              simp [hmem, hphil2, hg]
              right
              exact hrec
          | noGenFn =>
              simp only [genLoop] at *
              simp [hmem, hphil2, hg]
              right
              exact hrec
          | err m2 =>
              simp only [genLoop] at *
              simp [hmem, hphil2, hg]
              right
              exact hrec
      · simp only [genLoop] at *
        simpa [hmem] using hrec

theorem genLoop_noGenFn_log (h : Bool) (gen : String → LayerOutcome) (id0 : String)
    (hNo : gen id0 = .noGenFn) (hguard : ¬(id0 = "phil" ∧ h = false)) :
    ∀ l : List String, id0 ∈ l → LAYERS.contains id0 = true →
      (layerName id0 ++ ": generateTrait() not found. Skipped.") ∈ (genLoop h gen l).2 := by
  intro l
  induction l with
  | nil => intro hx; cases hx
  | cons id rest ih =>
    intro hx hc
    rcases List.mem_cons.mp hx with heq | hx'
    · subst heq
      have hphil : (decide (id0 = "phil") && !h) = false := by
        by_cases hp : id0 = "phil"
        · have hh : h = true := by
            cases h
            · exact absurd ⟨hp, rfl⟩ hguard
            · rfl
          simp [hh]
        · simp [hp]
      simp only [genLoop, hc, Bool.not_true, Bool.false_eq_true, if_false, hphil, hNo]
      exact List.mem_cons_self _ _
    · have hrec := ih hx' hc
      by_cases hmem : id ∈ LAYERS
      · by_cases hphil2 : id = "phil" ∧ h = false
        · obtain ⟨hp, hh⟩ := hphil2
          subst hp
          subst hh
          simp only [genLoop] at *
          simp [hmem]
          right
          exact hrec
        · cases hg : gen id with
          | ok svg =>
              simp only [genLoop] at *
              simp [hmem, hphil2, hg]
              right
              exact hrec
          | noGenFn =>
              simp only [genLoop] at *
              simp [hmem, hphil2, hg]
              right
              exact hrec
          | err m2 =>
              simp only [genLoop] at *
              simp [hmem, hphil2, hg]
              right
              exact hrec
      · simp only [genLoop] at *
        simpa [hmem] using hrec

theorem genLoop_agree_filter (h : Bool) (gen gen' : String → LayerOutcome) (id0 : String)
    (hAgree : ∀ id, id ≠ id0 → gen' id = gen id) :
    ∀ l : List String,
      (genLoop h gen l).1.filter (fun a => a.1 != id0) =
        (genLoop h gen' l).1.filter (fun a => a.1 != id0) := by
  intro l
  induction l with
  | nil => rfl
  | cons id rest ih =>
    by_cases heq : id = id0
    · subst heq
      by_cases hmem : id ∈ LAYERS
      · by_cases hphil2 : id = "phil" ∧ h = false
        · obtain ⟨hp, hh⟩ := hphil2
          subst hp
          subst hh
          simp [genLoop, hmem, ih]
        · cases hg : gen id <;> cases hg' : gen' id <;>
            simp [genLoop, hmem, hphil2, hg, hg', ih, List.filter_cons]
      · simp [genLoop, hmem, ih]
    · have hag : gen' id = gen id := hAgree id heq
      by_cases hmem : id ∈ LAYERS
      · by_cases hphil2 : id = "phil" ∧ h = false
        · obtain ⟨hp, hh⟩ := hphil2
          subst hp
          subst hh
          simp [genLoop, hmem, ih]
        · cases hg : gen id <;>
            simp [genLoop, hmem, hphil2, hg, hag, ih, List.filter_cons, heq]
      · simp [genLoop, hmem, ih]

/-- C1: the Composite produced by the orchestrator stacks its surviving
LayerArtifacts in the Canonical Order (bg, wings, phil, spikes, eyes, nose,
teeth, top) restricted to the surviving set; and for any two requested lists
denoting the same set of layer names (e.g. `["top","bg"]` and
`["bg","top"]`), the whole result — stacking order included — is identical,
independent of request order. -/
theorem c1_composite_canonical_order (h : Bool) (gen : String → LayerOutcome)
    (ids1 ids2 : List String) (hset : ∀ x, x ∈ ids1 ↔ x ∈ ids2) :
    generateLayers h gen ids1 = generateLayers h gen ids2 ∧
      ((generateLayers h gen ids1).1.map Prod.fst) =
        LAYERS.filter (fun id => ids1.contains id && survives h gen id) := by
  constructor
  · unfold generateLayers
    rw [orderByCanonical_set_invariant ids1 ids2 hset]
  · unfold generateLayers
    rw [genLoop_fst_map]
    unfold orderByCanonical
    rw [List.filter_filter]
    apply List.filter_congr
    intro x hx
    simp [hx, Bool.and_comm]

/-- Witness for C1 at the spec's own example: requested lists
`["top","bg"]` and `["bg","top"]` on the canonical order, with every
generator succeeding. -/
theorem c1_composite_canonical_order_witness :
    generateLayers true (fun _ => .ok "S") ["top", "bg"] =
        generateLayers true (fun _ => .ok "S") ["bg", "top"] ∧
      ((generateLayers true (fun _ => .ok "S") ["top", "bg"]).1.map Prod.fst) =
        LAYERS.filter (fun id =>
          (["top", "bg"] : List String).contains id &&
            survives true (fun _ => .ok "S") id) :=
  c1_composite_canonical_order true (fun _ => .ok "S") ["top", "bg"] ["bg", "top"]
    (by intro x; simp; tauto)

/-- C2: a layer whose trait generator throws, or whose module lacks a
`generateTrait` function, is omitted from the Composite and a log line is
emitted for it (the `failed:` line on a throw, the `generateTrait() not
found. Skipped.` line on a missing generator), while every other requested
layer's artifact is unaffected by the failure (siblings are generated
exactly as they would be under any generator assignment agreeing outside
the failing layer); the orchestrator itself is a total function, so the
failure never escapes it. -/
theorem c2_layer_failure_isolated (h : Bool) (gen gen' : String → LayerOutcome)
    (ids : List String) (id0 : String) (m : String)
    (hFail : gen id0 = .err m ∨ gen id0 = .noGenFn)
    (hAgree : ∀ id, id ≠ id0 → gen' id = gen id) :
    (id0 ∉ (generateLayers h gen ids).1.map Prod.fst) ∧
    (id0 ∈ ids → LAYERS.contains id0 = true → ¬(id0 = "phil" ∧ h = false) →
        (if gen id0 = LayerOutcome.noGenFn
          then layerName id0 ++ ": generateTrait() not found. Skipped."
          else layerName id0 ++ " failed: " ++ m) ∈ (generateLayers h gen ids).2) ∧
    ((generateLayers h gen ids).1.filter (fun a => a.1 != id0) =
        (generateLayers h gen' ids).1.filter (fun a => a.1 != id0)) := by
  refine ⟨?_, ?_, ?_⟩
  · rw [generateLayers, genLoop_fst_map]
    intro hmem
    rw [List.mem_filter] at hmem
    have hs := hmem.2
    rcases hFail with hErr | hNo
    · simp [survives, hErr] at hs
    · simp [survives, hNo] at hs
  · intro hin hc hguard
    have hmemOrd : id0 ∈ orderByCanonical ids := by
      unfold orderByCanonical
      rw [List.mem_filter]
      refine ⟨?_, ?_⟩
      · simp only [List.contains, List.elem_iff] at hc; exact hc
      · simp only [List.contains, List.elem_iff]; exact hin
    rcases hFail with hErr | hNo
    · rw [if_neg (by rw [hErr]; intro hcontra; cases hcontra)]
      exact genLoop_err_log h gen id0 m hErr hguard (orderByCanonical ids) hmemOrd hc
    · rw [if_pos hNo]
      exact genLoop_noGenFn_log h gen id0 hNo hguard (orderByCanonical ids) hmemOrd hc
  · exact genLoop_agree_filter h gen gen' id0 hAgree (orderByCanonical ids)

/-- Witness for C2, exercising the missing-`generateTrait` mode: the eyes
module lacks the function, bg and top succeed. -/
theorem c2_layer_failure_isolated_witness :
    (("eyes" : String) ∉
        (generateLayers true
          (fun id => if id = "eyes" then .noGenFn else .ok "S")
          ["top", "eyes", "bg"]).1.map Prod.fst) ∧
    (("eyes" : String) ∈ (["top", "eyes", "bg"] : List String) →
        LAYERS.contains "eyes" = true → ¬("eyes" = "phil" ∧ true = false) →
        (if (fun id => if id = "eyes" then LayerOutcome.noGenFn else .ok "S") "eyes"
            = LayerOutcome.noGenFn
          then layerName "eyes" ++ ": generateTrait() not found. Skipped."
          else layerName "eyes" ++ " failed: " ++ "boom") ∈
          (generateLayers true
            (fun id => if id = "eyes" then .noGenFn else .ok "S")
            ["top", "eyes", "bg"]).2) ∧
    ((generateLayers true
          (fun id => if id = "eyes" then .noGenFn else .ok "S")
          ["top", "eyes", "bg"]).1.filter (fun a => a.1 != "eyes") =
        (generateLayers true
          (fun id => if id = "eyes" then .noGenFn else .ok "S")
          ["top", "eyes", "bg"]).1.filter (fun a => a.1 != "eyes")) :=
  c2_layer_failure_isolated true
    (fun id => if id = "eyes" then .noGenFn else .ok "S")
    (fun id => if id = "eyes" then .noGenFn else .ok "S")
    ["top", "eyes", "bg"] "eyes" "boom" (Or.inr (by simp)) (fun _ _ => rfl)

/-! ## Region clipper (`clipPolylineToPath`, eyes trait)

The clipper walks a polyline once, keeping maximal interior runs and
bisecting each interior/exterior transition to the boundary.  The
point-in-path oracle (`isPointInPathRasterized` in the source, a canvas
rasterization) and `Math.hypot` are parameters of the embedding. -/

/-- A polyline point `{x, y}`; curve points produced by the generators also
carry a normalized parameter `t` (cut points synthesized by the clipper do
not, hence the `Option`). -/
structure Pt where
  x : ℚ
  y : ℚ
  tpar : Option ℚ := none
deriving Repr, DecidableEq

/-- The point `A + (B - A) * m` interpolated on segment `A→B` (the clipper
builds its boundary cuts this way; they carry no `t`). -/
def ptOnSeg (a b : Pt) (m : ℚ) : Pt :=
  ⟨a.x + (b.x - a.x) * m, a.y + (b.y - a.y) * m, none⟩

/-- The bisection loop of `bisectToBoundary`: 24 iterations, keeping `lo` on
the interior side, with an early break once the bracketed arc length is
below `tol`. -/
def bisectAux (isInside : ℚ → ℚ → Bool) (hypotF : ℚ → ℚ → ℚ) (tol : ℚ) (a b : Pt) :
    ℕ → ℚ → ℚ → ℚ
  | 0, lo, _ => lo
  | n + 1, lo, hi =>
      let mid := (lo + hi) / 2
      let p := ptOnSeg a b mid
      let lo' := if isInside p.x p.y then mid else lo
      let hi' := if isInside p.x p.y then hi else mid
      if (hi' - lo') * hypotF (b.x - a.x) (b.y - a.y) ≤ tol then lo'
      else bisectAux isInside hypotF tol a b n lo' hi'

/-- `bisectToBoundary(ax, ay, bx, by)`: `A` straddles inside, `B` outside;
returns the boundary point found from `A` toward `B` (the point at the
final `lo`). -/
def bisectToBoundary (isInside : ℚ → ℚ → Bool) (hypotF : ℚ → ℚ → ℚ) (tol : ℚ)
    (a b : Pt) : Pt :=
  ptOnSeg a b (bisectAux isInside hypotF tol a b 24 0 1)

/-- The main walk of `clipPolylineToPath`: state is the previous point, its
interior flag, the running candidate segment `cur`, and the closed segments
`segs`; the final open segment is closed as-is, and segments shorter than
2 points are dropped. -/
def clipLoop (isInside : ℚ → ℚ → Bool) (hypotF : ℚ → ℚ → ℚ) (tol : ℚ) :
    Pt → Bool → List Pt → List (List Pt) → List Pt → List (List Pt)
  | _, _, cur, segs, [] => segs ++ (if 2 ≤ cur.length then [cur] else [])
  | prev, prevIn, cur, segs, p :: rest =>
      let nowIn := isInside p.x p.y
      if prevIn && nowIn then
        clipLoop isInside hypotF tol p nowIn
          ((if cur.isEmpty then [prev] else cur) ++ [p]) segs rest
      else if prevIn && !nowIn then
        let cut := bisectToBoundary isInside hypotF tol prev p
        let cur' := (if cur.isEmpty then [prev] else cur) ++ [cut]
        clipLoop isInside hypotF tol p nowIn []
          (segs ++ (if 2 ≤ cur'.length then [cur'] else [])) rest
      else if !prevIn && nowIn then
        let cut := bisectToBoundary isInside hypotF tol p prev
        clipLoop isInside hypotF tol p nowIn [cut, p] segs rest
      else
        clipLoop isInside hypotF tol p nowIn cur segs rest

/-- `clipPolylineToPath(pathData, points, viewBox, tol)` (eyes trait): clips
a polyline to the interior of the outline, returning the interior segments.
Returns `[]` for fewer than 2 points. -/
def clipPolylineToPath (isInside : ℚ → ℚ → Bool) (hypotF : ℚ → ℚ → ℚ)
    (points : List Pt) (tol : ℚ) : List (List Pt) :=
  if points.length < 2 then []
  else
    match points with
    | [] => []
    | p0 :: rest =>
        clipLoop isInside hypotF tol p0 (isInside p0.x p0.y)
          (if isInside p0.x p0.y then [p0] else []) [] rest

theorem bisectAux_inside (isInside : ℚ → ℚ → Bool) (hypotF : ℚ → ℚ → ℚ) (tol : ℚ)
    (a b : Pt) :
    ∀ (n : ℕ) (lo hi : ℚ),
      isInside (ptOnSeg a b lo).x (ptOnSeg a b lo).y = true →
      isInside (ptOnSeg a b (bisectAux isInside hypotF tol a b n lo hi)).x
        (ptOnSeg a b (bisectAux isInside hypotF tol a b n lo hi)).y = true := by
  intro n
  induction n with
  | zero => intro lo hi hlo; exact hlo
  | succ n ih =>
    intro lo hi hlo
    simp only [bisectAux]
    cases hmid : isInside (ptOnSeg a b ((lo + hi) / 2)).x (ptOnSeg a b ((lo + hi) / 2)).y with
    | true =>
        simp only [hmid, if_true]
        split
        · exact hmid
        · exact ih _ _ hmid
    | false =>
        simp only [hmid, Bool.false_eq_true, if_false]
        split
        · exact hlo
        · exact ih _ _ hlo

theorem bisectToBoundary_inside (isInside : ℚ → ℚ → Bool) (hypotF : ℚ → ℚ → ℚ)
    (tol : ℚ) (a b : Pt) (ha : isInside a.x a.y = true) :
    isInside (bisectToBoundary isInside hypotF tol a b).x
      (bisectToBoundary isInside hypotF tol a b).y = true := by
  unfold bisectToBoundary
  apply bisectAux_inside
  simpa [ptOnSeg] using ha

/-- Segment well-formedness used by C3: at least two points, every point
classified interior by the oracle. -/
def GoodSeg (isInside : ℚ → ℚ → Bool) (s : List Pt) : Prop :=
  2 ≤ s.length ∧ ∀ q ∈ s, isInside q.x q.y = true

/-- Membership in the candidate run that the interior branches push:
`(if cur.isEmpty then [prev] else cur)`. -/
theorem mem_emptyGuard {isStateOk : Pt → Prop} {cur : List Pt} {prev q : Pt}
    (hq : q ∈ if cur.isEmpty then [prev] else cur)
    (hcur : ∀ r ∈ cur, isStateOk r)
    (hprev : isStateOk prev) : isStateOk q := by
  by_cases hce : cur.isEmpty
  · rw [if_pos hce] at hq
    rcases List.mem_singleton.mp hq with rfl
    exact hprev
  · rw [if_neg hce] at hq
    exact hcur q hq

theorem clipLoop_good (isInside : ℚ → ℚ → Bool) (hypotF : ℚ → ℚ → ℚ) (tol : ℚ) :
    ∀ (rest : List Pt) (prev : Pt) (b : Bool) (cur : List Pt) (segs : List (List Pt)),
      b = isInside prev.x prev.y →
      (∀ s ∈ segs, GoodSeg isInside s) →
      (∀ q ∈ cur, isInside q.x q.y = true) →
      ∀ seg ∈ clipLoop isInside hypotF tol prev b cur segs rest,
        GoodSeg isInside seg := by
  intro rest
  induction rest with
  | nil =>
    intro prev b cur segs _ hsegs hcur seg hseg
    simp only [clipLoop] at hseg
    rcases List.mem_append.mp hseg with hs | hs
    · exact hsegs seg hs
    · by_cases hlen : 2 ≤ cur.length
      · rw [if_pos hlen] at hs
        rcases List.mem_singleton.mp hs with rfl
        exact ⟨hlen, hcur⟩
      · rw [if_neg hlen] at hs
        cases hs
  | cons p rest ih =>
    intro prev b cur segs hb hsegs hcur seg hseg
    simp only [clipLoop] at hseg
    cases hpin : isInside prev.x prev.y with
    | true =>
      rw [hpin] at hb; subst hb
      cases hnow : isInside p.x p.y with
      | true =>
        rw [hnow] at hseg
        simp only [Bool.and_self, if_true] at hseg
        refine ih p true _ segs hnow.symm hsegs ?_ seg hseg
        intro q hq
        rcases List.mem_append.mp hq with hq' | hq'
        · exact mem_emptyGuard hq' hcur hpin
        · rcases List.mem_singleton.mp hq' with rfl
          exact hnow
      | false =>
        rw [hnow] at hseg
        simp only [Bool.and_false, Bool.not_false, Bool.and_true, Bool.false_eq_true,
          if_false, if_true, Bool.true_and, Bool.not_true] at hseg
        refine ih p false _ _ hnow.symm ?_ (by intro q hq; cases hq) seg hseg
        intro s hs
        rcases List.mem_append.mp hs with hs' | hs'
        · exact hsegs s hs'
        · set cur' := (if cur.isEmpty then [prev] else cur) ++
            [bisectToBoundary isInside hypotF tol prev p] with hcur'
          by_cases hlen : 2 ≤ cur'.length
          · rw [if_pos hlen] at hs'
            rcases List.mem_singleton.mp hs' with rfl
            refine ⟨hlen, ?_⟩
            intro q hq
            rcases List.mem_append.mp hq with hq' | hq'
            · exact mem_emptyGuard hq' hcur hpin
            · rcases List.mem_singleton.mp hq' with rfl
              exact bisectToBoundary_inside isInside hypotF tol prev p hpin
          · rw [if_neg hlen] at hs'
            cases hs'
    | false =>
      rw [hpin] at hb; subst hb
      cases hnow : isInside p.x p.y with
      | true =>
        rw [hnow] at hseg
        simp only [Bool.false_and, Bool.not_false, Bool.true_and, Bool.and_true,
          Bool.false_eq_true, if_false, if_true] at hseg
        refine ih p true _ segs hnow.symm hsegs ?_ seg hseg
        intro q hq
        rcases List.mem_cons.mp hq with rfl | hq'
        · exact bisectToBoundary_inside isInside hypotF tol p prev hnow
        · rcases List.mem_singleton.mp hq' with rfl
          exact hnow
      | false =>
        rw [hnow] at hseg
        simp only [Bool.false_and, Bool.not_false, Bool.and_false, Bool.false_eq_true,
          if_false] at hseg
        exact ih p false cur segs hnow.symm hsegs hcur seg hseg

/-- C3: every Segment returned by the region clipper has at least 2 points,
and every point of it — in particular every sample point other than the two
boundary-snapped endpoints — is classified interior by the Boundary Oracle
(`inside(outline, point) == true`).  (The proof gives the stronger fact
that even the snapped endpoints are classified interior: bisection always
returns the point at the interior end of the final bracket.) -/
theorem c3_segments_interior (isInside : ℚ → ℚ → Bool) (hypotF : ℚ → ℚ → ℚ)
    (points : List Pt) (tol : ℚ) :
    ∀ seg ∈ clipPolylineToPath isInside hypotF points tol,
      2 ≤ seg.length ∧ ∀ q ∈ seg, isInside q.x q.y = true := by
  intro seg hseg
  match points with
  | [] => simp [clipPolylineToPath] at hseg
  | [p] => simp [clipPolylineToPath] at hseg
  | p0 :: p1 :: rest =>
    have hseg' : seg ∈ clipLoop isInside hypotF tol p0 (isInside p0.x p0.y)
        (if isInside p0.x p0.y then [p0] else []) [] (p1 :: rest) := by
      have hlen : ¬((p0 :: p1 :: rest : List Pt).length < 2) := by
        simp only [List.length_cons]
        omega
      rw [clipPolylineToPath, if_neg hlen] at hseg
      exact hseg
    refine clipLoop_good isInside hypotF tol (p1 :: rest) p0 (isInside p0.x p0.y)
      _ [] rfl (by intro s hs; cases hs) ?_ seg hseg'
    intro q hq
    cases h0 : isInside p0.x p0.y with
    | true =>
        rw [h0] at hq
        simp only [if_true] at hq
        rcases List.mem_singleton.mp hq with rfl
        exact h0
    | false =>
        rw [h0] at hq
        simp only [Bool.false_eq_true, if_false] at hq
        cases hq

/-- Witness for C3: a 2-point polyline fully inside a trivially-true oracle
produces one segment; the theorem applies to it. -/
theorem c3_segments_interior_witness :
    2 ≤ ([⟨0, 0, none⟩, ⟨1, 0, none⟩] : List Pt).length ∧
      ∀ q ∈ ([⟨0, 0, none⟩, ⟨1, 0, none⟩] : List Pt),
        (fun _ _ => true : ℚ → ℚ → Bool) q.x q.y = true :=
  c3_segments_interior (fun _ _ => true) (fun _ _ => 0)
    [⟨0, 0, none⟩, ⟨1, 0, none⟩] (1/2)
    [⟨0, 0, none⟩, ⟨1, 0, none⟩] (by decide)

theorem clipLoop_all_inside (isInside : ℚ → ℚ → Bool) (hypotF : ℚ → ℚ → ℚ) (tol : ℚ) :
    ∀ (rest : List Pt) (prev : Pt) (cur : List Pt) (segs : List (List Pt)),
      isInside prev.x prev.y = true →
      (∀ p ∈ rest, isInside p.x p.y = true) →
      cur ≠ [] →
      clipLoop isInside hypotF tol prev true cur segs rest =
        segs ++ (if 2 ≤ (cur ++ rest).length then [cur ++ rest] else []) := by
  intro rest
  induction rest with
  | nil =>
    intro prev cur segs _ _ _
    simp [clipLoop]
  | cons p rest ih =>
    intro prev cur segs hprev hall hcur
    have hnow : isInside p.x p.y = true := hall p (List.mem_cons_self _ _)
    simp only [clipLoop, hnow, Bool.and_self, if_true]
    have hce : cur.isEmpty = false := by
      cases cur
      · exact absurd rfl hcur
      · rfl
    rw [hce]
    simp only [Bool.false_eq_true, if_false]
    rw [ih p (cur ++ [p]) segs hnow (fun q hq => hall q (List.mem_cons_of_mem _ hq))
      (by simp)]
    simp

/-- C4: clipping a curve of at least 2 points that lies entirely inside the
outline yields exactly one Segment, equal to the original curve point-for-
point (parameters included), hence spanning the full parameter range. -/
theorem c4_clip_roundtrip (isInside : ℚ → ℚ → Bool) (hypotF : ℚ → ℚ → ℚ)
    (points : List Pt) (tol : ℚ)
    (h2 : 2 ≤ points.length)
    (hin : ∀ p ∈ points, isInside p.x p.y = true) :
    clipPolylineToPath isInside hypotF points tol = [points] := by
  match points, h2, hin with
  | p0 :: rest, h2, hin =>
    have h0 : isInside p0.x p0.y = true := hin p0 (List.mem_cons_self _ _)
    unfold clipPolylineToPath
    rw [if_neg (by simp only [List.length_cons] at h2 ⊢; omega)]
    show clipLoop isInside hypotF tol p0 (isInside p0.x p0.y)
        (if isInside p0.x p0.y then [p0] else []) [] rest = [p0 :: rest]
    rw [h0]
    simp only [if_true]
    rw [clipLoop_all_inside isInside hypotF tol rest p0 [p0] [] h0
      (fun q hq => hin q (List.mem_cons_of_mem _ hq)) (by simp)]
    simp only [List.nil_append, List.singleton_append]
    rw [if_pos (by simpa using h2)]

/-- Witness for C4: the same 2-point polyline under the trivially-true
oracle round-trips to itself. -/
theorem c4_clip_roundtrip_witness :
    clipPolylineToPath (fun _ _ => true) (fun _ _ => 0)
        [⟨0, 0, some 0⟩, ⟨1, 0, some 1⟩] (1/2) =
      [[⟨0, 0, some 0⟩, ⟨1, 0, some 1⟩]] :=
  c4_clip_roundtrip (fun _ _ => true) (fun _ _ => 0)
    [⟨0, 0, some 0⟩, ⟨1, 0, some 1⟩] (1/2) (by decide) (by decide)

/-! ## Curve generators (`genSpiralPoints`, eyes trait; `generateArmPoints`, bg trait)

Transcendental float functions are fields of `MathFns`; `Math.PI` is the
exact rational value of its IEEE-754 double.  The ambient randomness
(`getSecureRandomNumber`, reading `window.crypto`) is explicit: a stream
`rng : ℕ → ℚ` and a cursor that advances once per draw, in source order.
Neither generator takes an RNG handle in the source: the stream models the
process-wide source. -/

/-- The exact rational value of the IEEE-754 double `Math.PI`
(`0x400921FB54442D18` = 884279719003555 · 2⁻⁴⁸). -/
def mathPI : ℚ := 884279719003555 / 281474976710656

/-- The runtime's float library, abstracted. -/
structure MathFns where
  sinf : ℚ → ℚ
  cosf : ℚ → ℚ
  sqrtf : ℚ → ℚ
  expf : ℚ → ℚ
  logf : ℚ → ℚ

/-- `Math.floor` on a rational. -/
def jsFloor (q : ℚ) : ℚ := (⌊q⌋ : ℚ)

/-- How many draws each `switch (type)` branch of `genSpiralPoints` takes
from the ambient random source: `rose` draws the lobe count,
`spiro_epitro`/`spiro_hypo` draw three gear parameters, `lissajous_polar`
draws two frequencies; all other branches are draw-free. -/
def spiralDraws (ty : String) : ℕ :=
  if ty = "rose" then 1
  else if ty = "spiro_epitro" then 3
  else if ty = "spiro_hypo" then 3
  else if ty = "lissajous_polar" then 2
  else 0

/-- The point pushed by one iteration of the `genSpiralPoints` loop body
(the `switch (type)`).  `t` is `i / (steps - 1 || 1)`; `theta = t * twoPiT`;
`rc` is the ambient-RNG cursor at the start of the iteration, so the
branch's draws (in source order) read `rng rc`, `rng (rc+1)`, `rng (rc+2)`. -/
def spiralPt (F : MathFns) (rng : ℕ → ℚ) (ty : String)
    (cx cy maxR : ℚ) (twoPiT : ℚ) (steps : ℕ) (i rc : ℕ) : Pt :=
  let t : ℚ := (i : ℚ) / (if steps ≤ 1 then 1 else (steps : ℚ) - 1)
  let theta := t * twoPiT
  if ty = "log" then
    let a : ℚ := 75/100
    let b := F.logf (1 + maxR / a) / twoPiT
    let r := a * F.expf (b * theta)
    ⟨cx + F.cosf theta * r, cy + F.sinf theta * r, some t⟩
  else if ty = "tight" then
    let r := t * maxR * (85/100)
    ⟨cx + F.cosf theta * r, cy + F.sinf theta * r, some t⟩
  else if ty = "loose" then
    let r := t * maxR * (115/100)
    ⟨cx + F.cosf theta * r, cy + F.sinf theta * r, some t⟩
  else if ty = "rose" then
    let k := 5 + jsFloor (rng rc * 4)
    let envelope := t * maxR * (105/100)
    let r := envelope * (1/2 + 1/2 * |F.sinf (k * theta)|)
    ⟨cx + F.cosf theta * r, cy + F.sinf theta * r, some t⟩
  else if ty = "sinewave" then
    let r := t * maxR * (1 + (12/100) * F.sinf (theta * (23/10)))
    ⟨cx + F.cosf theta * r, cy + F.sinf theta * r, some t⟩
  else if ty = "noisy" then
    let wob := (3/10) * F.sinf (t * 6) + (2/10) * F.sinf (t * (113/10))
    let r := t * maxR * (1 + wob * (2/10))
    ⟨cx + F.cosf theta * r, cy + F.sinf theta * r, some t⟩
  else if ty = "fermat" then
    let c := maxR / F.sqrtf twoPiT
    let r := c * F.sqrtf theta
    ⟨cx + F.cosf theta * r, cy + F.sinf theta * r, some t⟩
  else if ty = "lituus" then
    let eps : ℚ := 1/1000
    let k := maxR * F.sqrtf twoPiT
    let th := (1 - t) * twoPiT + eps
    let r := min (k / F.sqrtf th) maxR
    ⟨cx + F.cosf theta * r, cy + F.sinf theta * r, some t⟩
  else if ty = "arch" then
    let k := maxR / twoPiT
    let r := k * theta
    ⟨cx + F.cosf theta * r, cy + F.sinf theta * r, some t⟩
  else if ty = "spiro_epitro" then
    let rb0 := maxR * (28/100) * (1 + (2/10) * rng rc)
    let rb1 := rb0 * (30/100 + (25/100) * rng (rc + 1))
    let d := rb1 * (8/10 + (6/10) * rng (rc + 2))
    let k := (rb0 + rb1) / rb1
    let xx := (rb0 + rb1) * F.cosf theta - d * F.cosf (k * theta)
    let yy := (rb0 + rb1) * F.sinf theta - d * F.sinf (k * theta)
    ⟨cx + xx, cy + yy, some t⟩
  else if ty = "spiro_hypo" then
    let rb0 := maxR * (32/100) * (1 + (2/10) * rng rc)
    let rb1 := rb0 * (32/100 + (25/100) * rng (rc + 1))
    let d := rb1 * (7/10 + (5/10) * rng (rc + 2))
    let k := (rb0 - rb1) / rb1
    let xx := (rb0 - rb1) * F.cosf theta + d * F.cosf (k * theta)
    let yy := (rb0 - rb1) * F.sinf theta - d * F.sinf (k * theta)
    ⟨cx + xx, cy + yy, some t⟩
  else if ty = "involute" then
    let a := maxR * (18/100)
    let th := t * (twoPiT * (9/10))
    let xx := a * (F.cosf th + th * F.sinf th)
    let yy := a * (F.sinf th - th * F.cosf th)
    ⟨cx + xx, cy + yy, some t⟩
  else if ty = "lissajous_polar" then
    let n := 6 + jsFloor (rng rc * 5)
    let m := 3 + jsFloor (rng (rc + 1) * 3)
    let md := 45/100 + (40/100) * F.sinf (n * theta + m * (7/10))
    let r := maxR * (82/100) * t * (65/100 + (35/100) * md)
    ⟨cx + F.cosf theta * r, cy + F.sinf theta * r, some t⟩
  else if ty = "bundle" then
    let base := t * maxR * (85/100)
    let wob := (12/100) * F.sinf (7 * theta) + (8/100) * F.cosf (11 * theta)
    let r := base * (1 + wob)
    ⟨cx + F.cosf theta * r, cy + F.sinf theta * r, some t⟩
  else
    let r := t * maxR
    ⟨cx + F.cosf theta * r, cy + F.sinf theta * r, some t⟩

/-- One iteration of the `genSpiralPoints` loop body: the pushed point
paired with the ambient cursor advanced by the branch's draw count. -/
def spiralStep (F : MathFns) (rng : ℕ → ℚ) (ty : String)
    (cx cy maxR : ℚ) (twoPiT : ℚ) (steps : ℕ) (i rc : ℕ) : Pt × ℕ :=
  (spiralPt F rng ty cx cy maxR twoPiT steps i rc, rc + spiralDraws ty)

/-- The `for (let i = 0; i < steps; i++)` loop of `genSpiralPoints`: one
point pushed per iteration, cursor threaded through the draws. -/
def genSpiralAux (F : MathFns) (rng : ℕ → ℚ) (ty : String)
    (cx cy maxR twoPiT : ℚ) (steps : ℕ) : ℕ → ℕ → ℕ → List Pt
  | 0, _, _ => []
  | fuel + 1, i, rc =>
      let s := spiralStep F rng ty cx cy maxR twoPiT steps i rc
      s.1 :: genSpiralAux F rng ty cx cy maxR twoPiT steps fuel (i + 1) s.2

/-- `genSpiralPoints({type, cx, cy, maxR, turns, steps})` (eyes trait): the
ambient cursor `rc` is the state of the process-wide RNG at call time. -/
def genSpiralPoints (F : MathFns) (rng : ℕ → ℚ) (ty : String)
    (cx cy maxR turns : ℚ) (steps : ℕ) (rc : ℕ) : List Pt :=
  genSpiralAux F rng ty cx cy maxR (turns * 2 * mathPI) steps steps 0 rc

/-- `Number(n.toFixed(1))` as the source's `round` helper uses it:
round to one decimal, ties toward +∞ (ECMAScript `toFixed` picks the larger
candidate on a tie). -/
def jsRound1 (q : ℚ) : ℚ := (⌊q * 10 + 1/2⌋ : ℚ) / 10

/-- `easeOutCubic(t) = 1 - (1 - t)^3` (bg trait). -/
def easeOutCubic (t : ℚ) : ℚ := 1 - (1 - t)^3

/-- How many ambient draws each `generateArmPoints` branch takes:
`randomwalk` draws a jitter, `rose` draws the lobe count; the rest none. -/
def armDraws (ty : String) : ℕ :=
  if ty = "randomwalk" then 1
  else if ty = "rose" then 1
  else 0

/-- The point pushed by one iteration of the `generateArmPoints` loop body
(bg trait switch), rounded to 1 decimal as the source's `round` does.
`thetaStart = (armIndex / totalArms) * 2π`; `GOLDEN_ANGLE = π(3 - √5)`. -/
def armPt (F : MathFns) (rng : ℕ → ℚ) (cx cy : ℚ)
    (armIndex totalArms : ℕ) (ty : String) (points : ℕ) (maxRadius : ℚ)
    (i rc : ℕ) : Pt :=
  let thetaStart : ℚ := ((armIndex : ℚ) / (totalArms : ℚ)) * mathPI * 2
  let t : ℚ := (i : ℚ) / (if points ≤ 1 then 1 else (points : ℚ) - 1)
  let push : ℚ → ℚ → Pt := fun x y => ⟨jsRound1 x, jsRound1 y, some t⟩
  if ty = "log" then
    let turns : ℚ := 32/10
    let theta := thetaStart + t * turns * 2 * mathPI
    let a : ℚ := 6/10
    let b := F.logf (1 + maxRadius / a) / (turns * 2 * mathPI)
    let r := a * F.expf (b * theta)
    push (cx + r * F.cosf theta) (cy + r * F.sinf theta)
  else if ty = "tight" then
    let theta := thetaStart + t * 8 * mathPI
    let r := t * maxRadius * (95/100)
    push (cx + F.cosf theta * r) (cy + F.sinf theta * r)
  else if ty = "loose" then
    let theta := thetaStart + t * 2 * mathPI
    let r := t * maxRadius * (115/100)
    push (cx + F.cosf theta * r) (cy + F.sinf theta * r)
  else if ty = "flower" then
    let theta := thetaStart + F.sinf (t * mathPI * 6)
    let r := max 0 (F.sinf (t * mathPI)) * maxRadius * (115/100)
    push (cx + F.cosf theta * r) (cy + F.sinf theta * r)
  else if ty = "sinewave" then
    let theta := thetaStart + t * 4 * mathPI + F.sinf (t * 8) * (25/100)
    let r := t * maxRadius
    push (cx + F.cosf theta * r) (cy + F.sinf theta * r)
  else if ty = "randomwalk" then
    let theta := thetaStart + t * 4 * mathPI + (rng rc - 1/2) * (12/10)
    let r := t * maxRadius
    push (cx + F.cosf theta * r) (cy + F.sinf theta * r)
  else if ty = "mirror" then
    let theta := thetaStart + mathPI * ((i % 2 : ℕ) : ℚ)
    let r := t * maxRadius
    push (cx + F.cosf theta * r) (cy + F.sinf theta * r)
  else if ty = "arch" then
    let turns : ℚ := 36/10
    let theta := thetaStart + t * turns * 2 * mathPI
    let k := maxRadius / (turns * 2 * mathPI)
    let r := k * (theta - thetaStart)
    push (cx + F.cosf theta * r) (cy + F.sinf theta * r)
  else if ty = "fermat" then
    let turns : ℚ := 32/10
    let theta := thetaStart + t * turns * 2 * mathPI
    let total := turns * 2 * mathPI
    let c := maxRadius / F.sqrtf total
    let r := c * F.sqrtf (max 0 (theta - thetaStart))
    push (cx + F.cosf theta * r) (cy + F.sinf theta * r)
  else if ty = "lituus" then
    let turns : ℚ := 3
    let theta := thetaStart + (1 - t) * turns * 2 * mathPI + 1/1000
    let k := maxRadius * F.sqrtf (turns * 2 * mathPI)
    let r := k / F.sqrtf (theta - thetaStart)
    push (cx + F.cosf theta * r) (cy + F.sinf theta * r)
  else if ty = "rose" then
    let turns : ℚ := 32/10
    let theta := thetaStart + t * turns * 2 * mathPI
    let lobes := 5 + jsFloor (rng rc * 4)
    let envelope := easeOutCubic t * maxRadius
    let r := envelope * (55/100 + (45/100) * |F.sinf (lobes * theta)|)
    push (cx + F.cosf theta * r) (cy + F.sinf theta * r)
  else if ty = "phyllo" then
    let s : ℕ := i + armIndex * 7
    let r := F.sqrtf ((s : ℚ) / (if points ≤ 1 then 1 else (points : ℚ) - 1)) * maxRadius
    let theta := thetaStart + (s : ℚ) * (mathPI * (3 - F.sqrtf 5))
    push (cx + F.cosf theta * r) (cy + F.sinf theta * r)
  else if ty = "noisy" then
    let baseTurns : ℚ := 38/10
    let wob := (35/100) * F.sinf (t * 6 + (armIndex : ℚ) * (9/10)) +
      (2/10) * F.sinf (t * (113/10) + (i : ℚ) * (17/100))
    let theta := thetaStart + t * baseTurns * 2 * mathPI + wob * (35/100)
    let r := (easeOutCubic t * maxRadius) * (1 + wob * (15/100))
    push (cx + F.cosf theta * r) (cy + F.sinf theta * r)
  else
    let theta := thetaStart + t * 4 * mathPI
    let r := t * maxRadius
    push (cx + F.cosf theta * r) (cy + F.sinf theta * r)

/-- One iteration of the `generateArmPoints` loop body: pushed point plus
advanced ambient cursor. -/
def armStep (F : MathFns) (rng : ℕ → ℚ) (cx cy : ℚ)
    (armIndex totalArms : ℕ) (ty : String) (points : ℕ) (maxRadius : ℚ)
    (i rc : ℕ) : Pt × ℕ :=
  (armPt F rng cx cy armIndex totalArms ty points maxRadius i rc, rc + armDraws ty)

/-- The `for (let i = 0; i < points; i++)` loop of `generateArmPoints`. -/
def armAux (F : MathFns) (rng : ℕ → ℚ) (cx cy : ℚ)
    (armIndex totalArms : ℕ) (ty : String) (points : ℕ) (maxRadius : ℚ) :
    ℕ → ℕ → ℕ → List Pt
  | 0, _, _ => []
  | fuel + 1, i, rc =>
      let s := armStep F rng cx cy armIndex totalArms ty points maxRadius i rc
      s.1 :: armAux F rng cx cy armIndex totalArms ty points maxRadius fuel (i + 1) s.2

/-- `generateArmPoints({cx, cy, armIndex, totalArms, type, points, maxRadius})`
(bg trait). -/
def generateArmPoints (F : MathFns) (rng : ℕ → ℚ) (cx cy : ℚ)
    (armIndex totalArms : ℕ) (ty : String) (points : ℕ) (maxRadius : ℚ)
    (rc : ℕ) : List Pt :=
  armAux F rng cx cy armIndex totalArms ty points maxRadius points 0 rc

theorem genSpiralAux_length (F : MathFns) (rng : ℕ → ℚ) (ty : String)
    (cx cy maxR twoPiT : ℚ) (steps : ℕ) :
    ∀ (fuel i rc : ℕ),
      (genSpiralAux F rng ty cx cy maxR twoPiT steps fuel i rc).length = fuel := by
  intro fuel
  induction fuel with
  | zero => intro i rc; rfl
  | succ n ih =>
    intro i rc
    simp only [genSpiralAux, List.length_cons, ih]

theorem armAux_length (F : MathFns) (rng : ℕ → ℚ) (cx cy : ℚ)
    (armIndex totalArms : ℕ) (ty : String) (points : ℕ) (maxRadius : ℚ) :
    ∀ (fuel i rc : ℕ),
      (armAux F rng cx cy armIndex totalArms ty points maxRadius fuel i rc).length = fuel := by
  intro fuel
  induction fuel with
  | zero => intro i rc; rfl
  | succ n ih =>
    intro i rc
    simp only [armAux, List.length_cons, ih]

theorem spiralDraws_le_three (ty : String) : spiralDraws ty ≤ 3 := by
  unfold spiralDraws
  split_ifs <;> omega

theorem spiralStep_rc_bound (F : MathFns) (rng : ℕ → ℚ) (ty : String)
    (cx cy maxR twoPiT : ℚ) (steps i rc : ℕ) :
    rc ≤ (spiralStep F rng ty cx cy maxR twoPiT steps i rc).2 ∧
      (spiralStep F rng ty cx cy maxR twoPiT steps i rc).2 ≤ rc + 3 := by
  constructor
  · show rc ≤ rc + spiralDraws ty
    exact Nat.le_add_right _ _
  · show rc + spiralDraws ty ≤ rc + 3
    exact Nat.add_le_add_left (spiralDraws_le_three ty) rc

theorem spiralStep_agree (F : MathFns) (rng1 rng2 : ℕ → ℚ) (ty : String)
    (cx cy maxR twoPiT : ℚ) (steps i rc : ℕ)
    (h0 : rng1 rc = rng2 rc) (h1 : rng1 (rc + 1) = rng2 (rc + 1))
    (h2 : rng1 (rc + 2) = rng2 (rc + 2)) :
    spiralStep F rng1 ty cx cy maxR twoPiT steps i rc =
      spiralStep F rng2 ty cx cy maxR twoPiT steps i rc := by
  unfold spiralStep spiralPt
  simp only [h0, h1, h2]

theorem genSpiralAux_agree (F : MathFns) (rng1 rng2 : ℕ → ℚ) (ty : String)
    (cx cy maxR twoPiT : ℚ) (steps : ℕ) :
    ∀ (fuel i rc : ℕ),
      (∀ n, rc ≤ n → n < rc + 3 * fuel → rng1 n = rng2 n) →
      genSpiralAux F rng1 ty cx cy maxR twoPiT steps fuel i rc =
        genSpiralAux F rng2 ty cx cy maxR twoPiT steps fuel i rc := by
  intro fuel
  induction fuel with
  | zero => intro i rc _; rfl
  | succ n ih =>
    intro i rc hagree
    have hstep : spiralStep F rng1 ty cx cy maxR twoPiT steps i rc =
        spiralStep F rng2 ty cx cy maxR twoPiT steps i rc :=
      spiralStep_agree F rng1 rng2 ty cx cy maxR twoPiT steps i rc
        (hagree rc (le_refl rc) (by omega))
        (hagree (rc + 1) (by omega) (by omega))
        (hagree (rc + 2) (by omega) (by omega))
    simp only [genSpiralAux, hstep]
    congr 1
    apply ih
    intro m hm1 hm2
    have hb := spiralStep_rc_bound F rng2 ty cx cy maxR twoPiT steps i rc
    exact hagree m (by omega) (by omega)

/-- C6 counterexample: `genSpiralPoints` takes no RNG-stream argument; its
"rose" branch draws the lobe count from the ambient process-wide source
(`getSecureRandomNumber` → `window.crypto`).  Two runs with identical
function arguments but different ambient randomness produce different
Curves, refuting "all random draws come from the RNG stream supplied as an
argument". -/
theorem c6_ambient_rng_counterexample :
    genSpiralPoints ⟨fun q => q - 5, fun _ => 1, fun _ => 0, fun _ => 0, fun _ => 0⟩
        (fun _ => 0) "rose" 0 0 1 (1 / (2 * mathPI)) 2 0 ≠
      genSpiralPoints ⟨fun q => q - 5, fun _ => 1, fun _ => 0, fun _ => 0, fun _ => 0⟩
        (fun _ => 1/4) "rose" 0 0 1 (1 / (2 * mathPI)) 2 0 := by
  intro h
  simp [genSpiralPoints, genSpiralAux, spiralStep, spiralPt, spiralDraws, jsFloor,
    mathPI, Pt.mk.injEq] at h
  norm_num at h

/-- C6 (amended): the generators draw from the ambient process-wide secure
random source, made explicit as a stream plus cursor; determinism holds
only relative to that ambient stream: two runs whose ambient streams agree
on the (at most `3·steps`) draws consumed — and whose other arguments are
identical — produce identical Curves. -/
theorem c6_ambient_stream_amended (F : MathFns) (rng1 rng2 : ℕ → ℚ) (ty : String)
    (cx cy maxR turns : ℚ) (steps rc : ℕ)
    (hagree : ∀ n, rc ≤ n → n < rc + 3 * steps → rng1 n = rng2 n) :
    genSpiralPoints F rng1 ty cx cy maxR turns steps rc =
      genSpiralPoints F rng2 ty cx cy maxR turns steps rc :=
  genSpiralAux_agree F rng1 rng2 ty cx cy maxR (turns * 2 * mathPI) steps steps 0 rc hagree

/-- Witness for the amended C6: ambient streams that agree on the first 6
draws (and differ afterwards) reproduce the same 2-step rose curve. -/
theorem c6_ambient_stream_amended_witness :
    genSpiralPoints ⟨fun q => q, fun _ => 1, fun _ => 0, fun _ => 0, fun _ => 0⟩
        (fun _ => 0) "rose" 0 0 1 (1 / (2 * mathPI)) 2 0 =
      genSpiralPoints ⟨fun q => q, fun _ => 1, fun _ => 0, fun _ => 0, fun _ => 0⟩
        (fun n => if n < 6 then 0 else 1) "rose" 0 0 1 (1 / (2 * mathPI)) 2 0 :=
  c6_ambient_stream_amended ⟨fun q => q, fun _ => 1, fun _ => 0, fun _ => 0, fun _ => 0⟩
    (fun _ => 0) (fun n => if n < 6 then 0 else 1) "rose" 0 0 1 (1 / (2 * mathPI)) 2 0
    (by
      intro n _ hn2
      have h6 : n < 6 := by omega
      show (0 : ℚ) = if n < 6 then 0 else 1
      rw [if_pos h6])

/-- C7 counterexample: a step count below 2 (here `steps = 1`) does not
yield an empty Curve — the loop still pushes one point — and a
non-positive `maxRadius` (here 0) with `steps = 2` yields a 2-point Curve,
refuting "degenerate inputs yield an empty Curve". -/
theorem c7_degenerate_counterexample :
    genSpiralPoints ⟨fun _ => 0, fun _ => 0, fun _ => 0, fun _ => 0, fun _ => 0⟩
        (fun _ => 0) "arch" 0 0 1 1 1 0 ≠ [] ∧
    genSpiralPoints ⟨fun _ => 0, fun _ => 0, fun _ => 0, fun _ => 0, fun _ => 0⟩
        (fun _ => 0) "arch" 0 0 0 1 2 0 ≠ [] := by
  constructor <;>
    (intro h
     have hlen := congrArg List.length h
     simp only [genSpiralPoints, genSpiralAux_length, List.length_nil] at hlen
     omega)

/-- C7 (amended): for every curve-generator kind and all arguments, the
generators never raise and return a Curve with exactly `stepCount` points:
`stepCount = 0` gives an empty Curve, but `stepCount = 1` gives a one-point
Curve and `maxRadius ≤ 0` does not empty the Curve. -/
theorem c7_generators_point_count (F : MathFns) (rng : ℕ → ℚ) (ty : String)
    (cx cy maxR turns maxRadius : ℚ) (steps rc : ℕ)
    (armIndex totalArms points : ℕ) :
    (genSpiralPoints F rng ty cx cy maxR turns steps rc).length = steps ∧
    (generateArmPoints F rng cx cy armIndex totalArms ty points maxRadius rc).length
      = points :=
  ⟨genSpiralAux_length F rng ty cx cy maxR (turns * 2 * mathPI) steps steps 0 rc,
   armAux_length F rng cx cy armIndex totalArms ty points maxRadius points 0 rc⟩

/-! ## Voronoi site sampler (`generatePointsInPath`, teeth trait)

Three sequential strategies fill one `points` array: boundary-offset sites
(deterministic, each accepted only if the oracle confirms interior
membership), a jittered grid over the inset bounding box (stopping once the
target count is reached), and a uniform random fill until the target count.
The unbounded `while` of the random fill is modelled with fuel: `none`
represents the loop still running. -/

/-- A bounding box as returned by `getBBox`. -/
structure BBox where
  x : ℚ
  y : ℚ
  w : ℚ
  h : ℚ

/-- `Math.ceil(Math.sqrt(n))` for a natural `n`. -/
def jsCeilSqrt (n : ℕ) : ℕ :=
  if Nat.sqrt n * Nat.sqrt n = n then Nat.sqrt n else Nat.sqrt n + 1

/-- The inward-offset candidate that iteration `i` of the boundary pass
builds: the path sample at `t = (i + 0.5) / boundaryCount`, offset
`safety = 3.5` px along the (normalized when nonzero) local normal.
`pointAt` is `getPointAtLength`, `len` is `getTotalLength`, `hypotF` is
`Math.hypot`. -/
def boundaryCand (pointAt : ℚ → ℚ × ℚ) (hypotF : ℚ → ℚ → ℚ) (len : ℚ)
    (boundaryCount : ℕ) (i : ℕ) : ℚ × ℚ :=
  let t := ((i : ℚ) + 1/2) / (boundaryCount : ℚ)
  let pt := pointAt (t * len)
  let prevPt := pointAt (max 0 (t * len - 1))
  let nextPt := pointAt (min len (t * len + 1))
  let tx := nextPt.1 - prevPt.1
  let tyv := nextPt.2 - prevPt.2
  let nx0 := -tyv
  let ny0 := tx
  let nlen := hypotF nx0 ny0
  let nx := if 0 < nlen then nx0 / nlen else nx0
  let ny := if 0 < nlen then ny0 / nlen else ny0
  (pt.1 + nx * (35/10), pt.2 + ny * (35/10))

/-- The boundary-offset pass: `boundaryCount` candidates, each kept only
when the oracle confirms interior membership. -/
def boundaryPhase (inside : ℚ → ℚ → Bool) (pointAt : ℚ → ℚ × ℚ)
    (hypotF : ℚ → ℚ → ℚ) (len : ℚ) (boundaryCount : ℕ) : List (ℚ × ℚ) :=
  (List.range boundaryCount).filterMap (fun i =>
    let cand := boundaryCand pointAt hypotF len boundaryCount i
    if inside cand.1 cand.2 then some cand else none)

/-- Inner (column) loop of the jittered-grid pass for one row `r`: each
visited cell draws two ambient randoms for the jitter, pushes the candidate
when the oracle accepts it, and breaks once the target count is reached. -/
def gridCols (inside : ℚ → ℚ → Bool) (rng : ℕ → ℚ) (numPoints : ℕ)
    (ix iy cw ch : ℚ) (r : ℕ) :
    List ℕ → List (ℚ × ℚ) → ℕ → List (ℚ × ℚ) × ℕ
  | [], pts, rc => (pts, rc)
  | c :: cs, pts, rc =>
      let x := ix + (c : ℚ) * cw + rng rc * cw * (85/100)
      let y := iy + (r : ℚ) * ch + rng (rc + 1) * ch * (85/100)
      if inside x y then
        let pts' := pts ++ [(x, y)]
        if numPoints ≤ pts'.length then (pts', rc + 2)
        else gridCols inside rng numPoints ix iy cw ch r cs pts' (rc + 2)
      else gridCols inside rng numPoints ix iy cw ch r cs pts (rc + 2)

/-- Outer (row) loop of the jittered-grid pass: after each row, break when
the target count is reached. -/
def gridRows (inside : ℚ → ℚ → Bool) (rng : ℕ → ℚ) (numPoints : ℕ)
    (ix iy cw ch : ℚ) (grid : ℕ) :
    List ℕ → List (ℚ × ℚ) → ℕ → List (ℚ × ℚ) × ℕ
  | [], pts, rc => (pts, rc)
  | r :: rs, pts, rc =>
      let res := gridCols inside rng numPoints ix iy cw ch r (List.range grid) pts rc
      if numPoints ≤ res.1.length then res
      else gridRows inside rng numPoints ix iy cw ch grid rs res.1 res.2

/-- The final `while (points.length < numPoints)` uniform fill, with fuel:
each attempt draws two ambient randoms; `none` models the un-terminated
loop. -/
def fillPhase (inside : ℚ → ℚ → Bool) (rng : ℕ → ℚ) (numPoints : ℕ)
    (ix iy iw ih : ℚ) : ℕ → List (ℚ × ℚ) → ℕ → Option (List (ℚ × ℚ) × ℕ)
  | fuel, pts, rc =>
      if numPoints ≤ pts.length then some (pts, rc)
      else
        match fuel with
        | 0 => none
        | fuel + 1 =>
            let x := ix + rng rc * iw
            let y := iy + rng (rc + 1) * ih
            if inside x y then
              fillPhase inside rng numPoints ix iy iw ih fuel (pts ++ [(x, y)]) (rc + 2)
            else
              fillPhase inside rng numPoints ix iy iw ih fuel pts (rc + 2)

/-- `generatePointsInPath(pathData, bbox, numPoints, viewBox)` (teeth
trait): boundary pass, then jittered grid over the 3.5 px inset box, then
random fill.  `boundaryCount = Math.floor(numPoints * 0.45)`;
`grid = Math.ceil(Math.sqrt(remain))`. -/
def generatePointsInPath (inside : ℚ → ℚ → Bool) (pointAt : ℚ → ℚ × ℚ)
    (hypotF : ℚ → ℚ → ℚ) (len : ℚ) (bbox : BBox) (numPoints : ℕ)
    (rng : ℕ → ℚ) (fuel : ℕ) : Option (List (ℚ × ℚ)) :=
  let boundaryCount := (⌊(numPoints : ℚ) * (45/100)⌋).toNat
  let pts1 := boundaryPhase inside pointAt hypotF len boundaryCount
  let ix := bbox.x + 35/10
  let iy := bbox.y + 35/10
  let iw := bbox.w - 2 * (35/10)
  let ih := bbox.h - 2 * (35/10)
  let remain := numPoints - pts1.length
  let grid := jsCeilSqrt remain
  let cw := iw / (grid : ℚ)
  let ch := ih / (grid : ℚ)
  let res := gridRows inside rng numPoints ix iy cw ch grid (List.range grid) pts1 0
  match fillPhase inside rng numPoints ix iy iw ih fuel res.1 res.2 with
  | none => none
  | some (pts3, _) => some pts3

theorem boundaryPhase_inside (inside : ℚ → ℚ → Bool) (pointAt : ℚ → ℚ × ℚ)
    (hypotF : ℚ → ℚ → ℚ) (len : ℚ) (boundaryCount : ℕ) :
    ∀ p ∈ boundaryPhase inside pointAt hypotF len boundaryCount,
      inside p.1 p.2 = true := by
  intro p hp
  unfold boundaryPhase at hp
  rcases List.mem_filterMap.mp hp with ⟨i, _, hf⟩
  dsimp only at hf
  split at hf
  · rename_i hcond
    cases hf
    exact hcond
  · cases hf

theorem boundaryPhase_length (inside : ℚ → ℚ → Bool) (pointAt : ℚ → ℚ × ℚ)
    (hypotF : ℚ → ℚ → ℚ) (len : ℚ) (boundaryCount : ℕ) :
    (boundaryPhase inside pointAt hypotF len boundaryCount).length ≤ boundaryCount := by
  unfold boundaryPhase
  calc (List.filterMap _ (List.range boundaryCount)).length
      ≤ (List.range boundaryCount).length := List.length_filterMap_le _ _
    _ = boundaryCount := List.length_range boundaryCount

theorem gridCols_spec (inside : ℚ → ℚ → Bool) (rng : ℕ → ℚ) (numPoints : ℕ)
    (ix iy cw ch : ℚ) (r : ℕ) :
    ∀ (cs : List ℕ) (pts : List (ℚ × ℚ)) (rc : ℕ),
      pts.length < numPoints →
      ∃ tail, (gridCols inside rng numPoints ix iy cw ch r cs pts rc).1 = pts ++ tail ∧
        (∀ p ∈ tail, inside p.1 p.2 = true) ∧
        (gridCols inside rng numPoints ix iy cw ch r cs pts rc).1.length ≤ numPoints := by
  intro cs
  induction cs with
  | nil =>
    intro pts rc hlt
    exact ⟨[], by simp [gridCols], (by intro p hp; cases hp), by simp [gridCols]; omega⟩
  | cons c cs ih =>
    intro pts rc hlt
    simp only [gridCols]
    cases hin : inside (ix + (c : ℚ) * cw + rng rc * cw * (85/100))
        (iy + (r : ℚ) * ch + rng (rc + 1) * ch * (85/100)) with
    | true =>
      simp only [if_true]
      by_cases hfull : numPoints ≤ (pts ++ [((ix + (c : ℚ) * cw + rng rc * cw * (85/100)),
          (iy + (r : ℚ) * ch + rng (rc + 1) * ch * (85/100)))]).length
      · rw [if_pos hfull]
        refine ⟨[((ix + (c : ℚ) * cw + rng rc * cw * (85/100)),
            (iy + (r : ℚ) * ch + rng (rc + 1) * ch * (85/100)))], rfl, ?_, ?_⟩
        · intro p hp
          rcases List.mem_singleton.mp hp with rfl
          exact hin
        · simp only [List.length_append, List.length_singleton]
          simp at hfull
          omega
      · rw [if_neg hfull]
        have hlt' : (pts ++ [((ix + (c : ℚ) * cw + rng rc * cw * (85/100)),
            (iy + (r : ℚ) * ch + rng (rc + 1) * ch * (85/100)))]).length < numPoints := by
          omega
        rcases ih _ (rc + 2) hlt' with ⟨tail, heq, htail, hle⟩
        refine ⟨((ix + (c : ℚ) * cw + rng rc * cw * (85/100)),
            (iy + (r : ℚ) * ch + rng (rc + 1) * ch * (85/100))) :: tail, ?_, ?_, hle⟩
        · rw [heq]
          simp
        · intro p hp
          rcases List.mem_cons.mp hp with rfl | hp'
          · exact hin
          · exact htail p hp'
    | false =>
      simp only [Bool.false_eq_true, if_false]
      exact ih pts (rc + 2) hlt

theorem gridRows_spec (inside : ℚ → ℚ → Bool) (rng : ℕ → ℚ) (numPoints : ℕ)
    (ix iy cw ch : ℚ) (grid : ℕ) :
    ∀ (rs : List ℕ) (pts : List (ℚ × ℚ)) (rc : ℕ),
      pts.length < numPoints →
      ∃ tail, (gridRows inside rng numPoints ix iy cw ch grid rs pts rc).1 = pts ++ tail ∧
        (∀ p ∈ tail, inside p.1 p.2 = true) ∧
        (gridRows inside rng numPoints ix iy cw ch grid rs pts rc).1.length ≤ numPoints := by
  intro rs
  induction rs with
  | nil =>
    intro pts rc hlt
    exact ⟨[], by simp [gridRows], (by intro p hp; cases hp), by simp [gridRows]; omega⟩
  | cons r rs ih =>
    intro pts rc hlt
    simp only [gridRows]
    rcases gridCols_spec inside rng numPoints ix iy cw ch r (List.range grid) pts rc hlt
      with ⟨tail1, heq1, htail1, hle1⟩
    by_cases hfull : numPoints ≤
        (gridCols inside rng numPoints ix iy cw ch r (List.range grid) pts rc).1.length
    · rw [if_pos hfull]
      exact ⟨tail1, heq1, htail1, hle1⟩
    · rw [if_neg hfull]
      rcases ih (gridCols inside rng numPoints ix iy cw ch r (List.range grid) pts rc).1
        (gridCols inside rng numPoints ix iy cw ch r (List.range grid) pts rc).2
        (by omega) with ⟨tail2, heq2, htail2, hle2⟩
      refine ⟨tail1 ++ tail2, ?_, ?_, hle2⟩
      · rw [heq2, heq1, List.append_assoc]
      · intro p hp
        rcases List.mem_append.mp hp with hp' | hp'
        · exact htail1 p hp'
        · exact htail2 p hp'

theorem fillPhase_spec (inside : ℚ → ℚ → Bool) (rng : ℕ → ℚ) (numPoints : ℕ)
    (ix iy iw hgt : ℚ) :
    ∀ (fuel : ℕ) (pts : List (ℚ × ℚ)) (rc : ℕ) (pts3 : List (ℚ × ℚ)) (rc3 : ℕ),
      pts.length ≤ numPoints →
      fillPhase inside rng numPoints ix iy iw hgt fuel pts rc = some (pts3, rc3) →
      pts3.length = numPoints ∧
        ∃ tail, pts3 = pts ++ tail ∧ ∀ p ∈ tail, inside p.1 p.2 = true := by
  intro fuel
  induction fuel with
  | zero =>
    intro pts rc pts3 rc3 hle hres
    simp only [fillPhase] at hres
    split at hres
    · rename_i hge
      cases hres
      exact ⟨by omega, [], by simp, (by intro p hp; cases hp)⟩
    · cases hres
  | succ n ih =>
    intro pts rc pts3 rc3 hle hres
    simp only [fillPhase] at hres
    split at hres
    · rename_i hge
      cases hres
      exact ⟨by omega, [], by simp, (by intro p hp; cases hp)⟩
    · rename_i hlt
      cases hin : inside (ix + rng rc * iw) (iy + rng (rc + 1) * hgt) with
      | true =>
        rw [hin] at hres
        simp only [if_true] at hres
        have hle' : (pts ++ [((ix + rng rc * iw), (iy + rng (rc + 1) * hgt))]).length
            ≤ numPoints := by
          simp only [List.length_append, List.length_singleton]
          omega
        rcases ih _ _ _ _ hle' hres with ⟨hlen, tail, heq, htail⟩
        refine ⟨hlen, ((ix + rng rc * iw), (iy + rng (rc + 1) * hgt)) :: tail, ?_, ?_⟩
        · rw [heq]; simp
        · intro p hp
          rcases List.mem_cons.mp hp with rfl | hp'
          · exact hin
          · exact htail p hp'
      | false =>
        rw [hin] at hres
        simp only [Bool.false_eq_true, if_false] at hres
        exact ih _ _ _ _ hle hres

/-- C5: whenever the site-sampling routine returns (the random fill found
enough interior sites within its budget), it returns exactly `numPoints`
sites, every one confirmed interior by the Boundary Oracle; the sites are
the boundary-offset pass (at most `⌊0.45·numPoints⌋` sites) followed by the
jittered-grid pass followed by the uniform random fill. -/
theorem c5_site_sampler (inside : ℚ → ℚ → Bool) (pointAt : ℚ → ℚ × ℚ)
    (hypotF : ℚ → ℚ → ℚ) (len : ℚ) (bbox : BBox) (numPoints : ℕ)
    (rng : ℕ → ℚ) (fuel : ℕ) (pts : List (ℚ × ℚ))
    (hres : generatePointsInPath inside pointAt hypotF len bbox numPoints rng fuel
      = some pts) :
    pts.length = numPoints ∧
    (∀ p ∈ pts, inside p.1 p.2 = true) ∧
    ∃ g f, pts =
        boundaryPhase inside pointAt hypotF len ((⌊(numPoints : ℚ) * (45/100)⌋).toNat)
          ++ g ++ f ∧
      (boundaryPhase inside pointAt hypotF len
          ((⌊(numPoints : ℚ) * (45/100)⌋).toNat)).length
        ≤ (⌊(numPoints : ℚ) * (45/100)⌋).toNat := by
  simp only [generatePointsInPath] at hres
  by_cases h0 : numPoints = 0
  · subst h0
    have hbc : (⌊((0 : ℕ) : ℚ) * (45/100)⌋).toNat = 0 := by norm_num
    rw [hbc] at hres ⊢
    have hpts1 : boundaryPhase inside pointAt hypotF len 0 = [] := by
      simp [boundaryPhase]
    rw [hpts1] at hres ⊢
    have hgrid : jsCeilSqrt (0 - List.length ([] : List (ℚ × ℚ))) = 0 := by
      simp [jsCeilSqrt]
    rw [hgrid] at hres
    simp only [List.range_zero, gridRows] at hres
    rw [show ∀ fl : ℕ, fillPhase inside rng 0 (bbox.x + 35/10) (bbox.y + 35/10)
        (bbox.w - 2 * (35/10)) (bbox.h - 2 * (35/10)) fl [] 0 = some ([], 0) from by
      intro fl; cases fl <;> simp [fillPhase]] at hres
    cases hres
    refine ⟨rfl, (by intro p hp; cases hp), [], [], by simp, by simp⟩
  · have hpos : 0 < numPoints := Nat.pos_of_ne_zero h0
    have hbclt : (⌊(numPoints : ℚ) * (45/100)⌋).toNat < numPoints := by
      have hf1 : ⌊(numPoints : ℚ) * (45/100)⌋ < (numPoints : ℤ) := by
        apply Int.floor_lt.mpr
        push_cast
        have hq : (0 : ℚ) < (numPoints : ℚ) := by exact_mod_cast hpos
        nlinarith
      have hf2 : 0 ≤ ⌊(numPoints : ℚ) * (45/100)⌋ := by
        apply Int.floor_nonneg.mpr
        positivity
      omega
    have hlt1 : (boundaryPhase inside pointAt hypotF len
        ((⌊(numPoints : ℚ) * (45/100)⌋).toNat)).length < numPoints :=
      lt_of_le_of_lt (boundaryPhase_length _ _ _ _ _) hbclt
    rcases gridRows_spec inside rng numPoints (bbox.x + 35/10) (bbox.y + 35/10)
        ((bbox.w - 2 * (35/10)) /
          ((jsCeilSqrt (numPoints - (boundaryPhase inside pointAt hypotF len
            ((⌊(numPoints : ℚ) * (45/100)⌋).toNat)).length) : ℕ) : ℚ))
        ((bbox.h - 2 * (35/10)) /
          ((jsCeilSqrt (numPoints - (boundaryPhase inside pointAt hypotF len
            ((⌊(numPoints : ℚ) * (45/100)⌋).toNat)).length) : ℕ) : ℚ))
        (jsCeilSqrt (numPoints - (boundaryPhase inside pointAt hypotF len
          ((⌊(numPoints : ℚ) * (45/100)⌋).toNat)).length))
        (List.range (jsCeilSqrt (numPoints - (boundaryPhase inside pointAt hypotF len
          ((⌊(numPoints : ℚ) * (45/100)⌋).toNat)).length)))
        (boundaryPhase inside pointAt hypotF len ((⌊(numPoints : ℚ) * (45/100)⌋).toNat))
        0 hlt1 with ⟨g, hgeq, hgin, hgle⟩
    set res := gridRows inside rng numPoints (bbox.x + 35/10) (bbox.y + 35/10)
        ((bbox.w - 2 * (35/10)) /
          ((jsCeilSqrt (numPoints - (boundaryPhase inside pointAt hypotF len
            ((⌊(numPoints : ℚ) * (45/100)⌋).toNat)).length) : ℕ) : ℚ))
        ((bbox.h - 2 * (35/10)) /
          ((jsCeilSqrt (numPoints - (boundaryPhase inside pointAt hypotF len
            ((⌊(numPoints : ℚ) * (45/100)⌋).toNat)).length) : ℕ) : ℚ))
        (jsCeilSqrt (numPoints - (boundaryPhase inside pointAt hypotF len
          ((⌊(numPoints : ℚ) * (45/100)⌋).toNat)).length))
        (List.range (jsCeilSqrt (numPoints - (boundaryPhase inside pointAt hypotF len
          ((⌊(numPoints : ℚ) * (45/100)⌋).toNat)).length)))
        (boundaryPhase inside pointAt hypotF len ((⌊(numPoints : ℚ) * (45/100)⌋).toNat))
        0 with hres1
    cases hfill : fillPhase inside rng numPoints (bbox.x + 35/10) (bbox.y + 35/10)
        (bbox.w - 2 * (35/10)) (bbox.h - 2 * (35/10)) fuel res.1 res.2 with
    | none => rw [hfill] at hres; cases hres
    | some val =>
      rw [hfill] at hres
      simp only [] at hres
      cases hres
      rcases fillPhase_spec inside rng numPoints (bbox.x + 35/10) (bbox.y + 35/10)
          (bbox.w - 2 * (35/10)) (bbox.h - 2 * (35/10)) fuel res.1 res.2 val.1 val.2
          hgle (by rw [hfill]) with ⟨hlen, f, hfeq, hfin⟩
      refine ⟨hlen, ?_, g, f, ?_, boundaryPhase_length _ _ _ _ _⟩
      · intro p hp
        rw [hfeq] at hp
        rcases List.mem_append.mp hp with hp' | hp'
        · rw [hgeq] at hp'
          rcases List.mem_append.mp hp' with hp'' | hp''
          · exact boundaryPhase_inside _ _ _ _ _ p hp''
          · exact hgin p hp''
        · exact hfin p hp'
      · rw [hfeq, hgeq]

/-- Witness for C5: a 1-site run over a degenerate box with the
trivially-true oracle completes in the grid pass with the single site
`(3.5, 3.5)`. -/
theorem c5_site_sampler_witness :
    ([((35/10 : ℚ), (35/10 : ℚ))] : List (ℚ × ℚ)).length = 1 ∧
    (∀ p ∈ ([((35/10 : ℚ), (35/10 : ℚ))] : List (ℚ × ℚ)),
        (fun _ _ => true : ℚ → ℚ → Bool) p.1 p.2 = true) ∧
    ∃ g f, ([((35/10 : ℚ), (35/10 : ℚ))] : List (ℚ × ℚ)) =
        boundaryPhase (fun _ _ => true) (fun _ => (0, 0)) (fun _ _ => 0) 0
          ((⌊((1 : ℕ) : ℚ) * (45/100)⌋).toNat) ++ g ++ f ∧
      (boundaryPhase (fun _ _ => true) (fun _ => (0, 0)) (fun _ _ => 0) 0
          ((⌊((1 : ℕ) : ℚ) * (45/100)⌋).toNat)).length
        ≤ (⌊((1 : ℕ) : ℚ) * (45/100)⌋).toNat :=
  c5_site_sampler (fun _ _ => true) (fun _ => (0, 0)) (fun _ _ => 0) 0 ⟨0, 0, 0, 0⟩ 1
    (fun _ => 0) 0 [((35/10 : ℚ), (35/10 : ℚ))]
    (by norm_num [generatePointsInPath, boundaryPhase, jsCeilSqrt, gridRows, gridCols,
      fillPhase])

/-! ## Teeth trait mode selection (exact clipping vs. mask fallback)

`hasClipper` is decided once at module load (`typeof window.ClipperLib !==
"undefined"`).  `generateTrait` builds the cell markup in the chosen mode
and assembles one SVG template whose only mode-dependent parts are the mask
definition and the mask group around the cells; the function contains no
log statement and no marker of the degraded mode. -/

/-- Substring occurrence on character lists (`listPre` is the
prefix test). -/
def listPre : List Char → List Char → Bool
  | [], _ => true
  | _ :: _, [] => false
  | p :: ps, c :: cs => p == c && listPre ps cs

/-- Does `pat` occur somewhere in the list? -/
def listOccurs (pat : List Char) : List Char → Bool
  | [] => listPre pat []
  | c :: cs => listPre pat (c :: cs) || listOccurs pat cs

/-- Does `pat` occur as a substring of `s`? -/
def strOccurs (pat s : String) : Bool := listOccurs pat.data s.data

/-- The final SVG template of the teeth trait's `generateTrait`: gums under
teeth; with no Clipper, a mask definition is emitted and the Voronoi cell
markup is wrapped in the mask group (whitespace collapsed as the source
does). -/
def teethSvg (hasClipper : Bool) (maskId viewBox teethPath gumsPath
    baseTeethFill baseGumsFill voronoiPaths : String) : String :=
  "<svg xmlns=\"http://www.w3.org/2000/svg\" width=\"420\" height=\"420\" viewBox=\""
    ++ viewBox ++ "\">"
  ++ (if hasClipper then "" else
      "<defs><mask id=\"" ++ maskId
        ++ "\"><rect x=\"0\" y=\"0\" width=\"420\" height=\"420\" fill=\"#000\"/><path d=\""
        ++ teethPath ++ "\" fill=\"#fff\"/></mask></defs>")
  ++ "<g id=\"gums\"><path d=\"" ++ gumsPath ++ "\" fill=\"" ++ baseGumsFill
    ++ "\" shape-rendering=\"geometricPrecision\"/></g>"
  ++ "<g id=\"teeth\"><path d=\"" ++ teethPath ++ "\" fill=\"" ++ baseTeethFill
    ++ "\" shape-rendering=\"geometricPrecision\"/>"
  ++ (if hasClipper then voronoiPaths
      else "<g mask=\"url(#" ++ maskId ++ ")\">" ++ voronoiPaths ++ "</g>")
  ++ "</g></svg>"

/-- The observable outcome of the teeth `generateTrait` run after the cell
markup has been built: the SVG string and the log/report lines the function
emits (the source emits none in either mode). -/
def teethGenerate (hasClipper : Bool) (maskId viewBox teethPath gumsPath
    baseTeethFill baseGumsFill voronoiPaths : String) : String × List String :=
  (teethSvg hasClipper maskId viewBox teethPath gumsPath baseTeethFill baseGumsFill
    voronoiPaths, [])

/-- C8 counterexample: with the clipping library absent, the degraded mask
mode emits no report line and its output carries no "approx" marker — the
fallback is silent, refuting "explicitly flagged as approximate in its
output or reporting, never silently substituted". -/
theorem c8_silent_mask_counterexample :
    (teethGenerate false "m" "0 0 420 420" "P" "G" "#111111" "#222222" "V").2 = [] ∧
    strOccurs "approx"
      (teethGenerate false "m" "0 0 420 420" "P" "G" "#111111" "#222222" "V").1
      = false := by
  exact ⟨rfl, by decide⟩

/-- C8 (amended): when exact polygon intersection is unavailable the mask
degraded mode is silently substituted: no log or report is emitted in
either mode, and the only observable trace of degradation is structural —
the output embeds the cell markup inside a mask group. -/
theorem c8_silent_mask_amended (maskId viewBox teethPath gumsPath
    baseTeethFill baseGumsFill voronoiPaths : String) :
    (teethGenerate false maskId viewBox teethPath gumsPath baseTeethFill baseGumsFill
      voronoiPaths).2 = [] ∧
    (teethGenerate true maskId viewBox teethPath gumsPath baseTeethFill baseGumsFill
      voronoiPaths).2 = [] ∧
    ("<g mask=\"url(#" ++ maskId ++ ")\">" ++ voronoiPaths ++ "</g>").data <:+:
      (teethGenerate false maskId viewBox teethPath gumsPath baseTeethFill baseGumsFill
        voronoiPaths).1.data := by
  refine ⟨rfl, rfl, ?_⟩
  show _ <:+: (teethSvg false maskId viewBox teethPath gumsPath baseTeethFill
    baseGumsFill voronoiPaths).data
  unfold teethSvg
  simp only [Bool.false_eq_true, if_false]
  refine ⟨("<svg xmlns=\"http://www.w3.org/2000/svg\" width=\"420\" height=\"420\" viewBox=\""
      ++ viewBox ++ "\">"
    ++ ("<defs><mask id=\"" ++ maskId
        ++ "\"><rect x=\"0\" y=\"0\" width=\"420\" height=\"420\" fill=\"#000\"/><path d=\""
        ++ teethPath ++ "\" fill=\"#fff\"/></mask></defs>")
    ++ "<g id=\"gums\"><path d=\"" ++ gumsPath ++ "\" fill=\"" ++ baseGumsFill
      ++ "\" shape-rendering=\"geometricPrecision\"/></g>"
    ++ "<g id=\"teeth\"><path d=\"" ++ teethPath ++ "\" fill=\"" ++ baseTeethFill
      ++ "\" shape-rendering=\"geometricPrecision\"/>").data, "</g></svg>".data, ?_⟩
  simp [String.data_append, List.append_assoc]

/-! ## SVGO optimization client (`svgoClient.js`) and `save()` fallback -/

/-- A message posted back by the SVGO worker: `{id, ok, svg, error}`. -/
structure WorkerMsg where
  id : ℕ
  ok : Bool
  svg : String
  err : String

/-- `optimizeSVG`'s pending-map protocol: the promise for correlation id
`reqId` settles on the first worker message with that id (`ok` resolves
with the optimized text, otherwise rejects); with no matching message in
the trace it stays pending forever (`none`).  There is no timeout. -/
def optimizeOutcome (msgs : List WorkerMsg) (reqId : ℕ) :
    Option (Except String String) :=
  match msgs.find? (fun m => m.id == reqId) with
  | none => none
  | some m => some (if m.ok then .ok m.svg else .error m.err)

/-- The `save()` path around `await optimizeSVG(candidate)` (app.js):
`finalSVG = candidate; try { finalSVG = await optimizeSVG(candidate) }
catch { /* keep candidate */ }`.  A never-settling await blocks the caller
(`none`). -/
def saveFinalSVG (msgs : List WorkerMsg) (reqId : ℕ) (candidate : String) :
    Option String :=
  match optimizeOutcome msgs reqId with
  | none => none
  | some (.ok s) => some s
  | some (.error _) => some candidate

/-- C9 counterexample: with no worker response for the request id (e.g. the
worker failed to load and never posts), the pending promise never settles
and `save()` blocks forever — there is no timeout path — refuting "a
missing response falls back to the un-optimized artifact and never blocks
indefinitely". -/
theorem c9_missing_response_counterexample :
    saveFinalSVG [] 1 "rawSvg" = none := rfl

/-- C9 (amended): whenever the worker trace contains a response for the
request id, `save()` completes: an `ok` response yields the optimized
text, an error response is caught and the un-optimized candidate is used,
and the failure never surfaces out of `save()`; but a missing response
blocks forever. -/
theorem c9_optimize_fallback_amended (msgs : List WorkerMsg) (reqId : ℕ)
    (candidate : String) (hm : ∃ m ∈ msgs, m.id = reqId) :
    saveFinalSVG msgs reqId candidate ≠ none ∧
    (∀ m, msgs.find? (fun m' => m'.id == reqId) = some m →
      saveFinalSVG msgs reqId candidate = some (if m.ok then m.svg else candidate)) := by
  have hsome : (msgs.find? (fun m' => m'.id == reqId)).isSome := by
    rw [List.find?_isSome]
    rcases hm with ⟨m, hmem, hid⟩
    exact ⟨m, hmem, by simp [hid]⟩
  constructor
  · cases hfind : msgs.find? (fun m' => m'.id == reqId) with
    | none => rw [hfind] at hsome; cases hsome
    | some m =>
      cases hok : m.ok with
      | true => simp [saveFinalSVG, optimizeOutcome, hfind, hok]
      | false => simp [saveFinalSVG, optimizeOutcome, hfind, hok]
  · intro m hfind
    cases hok : m.ok with
    | true => simp [saveFinalSVG, optimizeOutcome, hfind, hok]
    | false => simp [saveFinalSVG, optimizeOutcome, hfind, hok]

/-- Witness for the amended C9: a trace holding an error response for id 1
makes `save()` fall back to the raw candidate. -/
theorem c9_optimize_fallback_amended_witness :
    saveFinalSVG [⟨1, false, "", "SVGO crashed"⟩] 1 "rawSvg" ≠ none ∧
    (∀ m, ([⟨1, false, "", "SVGO crashed"⟩] : List WorkerMsg).find?
        (fun m' => m'.id == 1) = some m →
      saveFinalSVG [⟨1, false, "", "SVGO crashed"⟩] 1 "rawSvg" =
        some (if m.ok then m.svg else "rawSvg")) :=
  c9_optimize_fallback_amended [⟨1, false, "", "SVGO crashed"⟩] 1 "rawSvg"
    ⟨⟨1, false, "", "SVGO crashed"⟩, by simp, rfl⟩

/-! ## Nose and wings traits: total generators with placeholder SVGs

Both `generateTrait`s wrap their whole body in `try`/`catch` and, on any
internal error (fetch failure, missing path data), return a placeholder SVG
embedding the error text instead of rejecting.  Fetch results are `Except`
values; the palette lookup (`getColorByNumber`), the shade helper, and the
DOM-dependent dot-pattern builder of the wings trait (`getBBox`) are
function parameters. -/

/-- A sub-path entry of the nose outline descriptor (`{pathData, type}`). -/
structure SubPath where
  pathData : Option String
  ptype : Option String
deriving DecidableEq

/-- `noseOutline.json` as the nose trait reads it. -/
structure NoseJson where
  pathData : Option String
  paths : Option (List SubPath)
  viewBox : Option String
deriving DecidableEq

/-- The try-block body of the nose `generateTrait`: validation, palette
pick (one ambient draw for the base index 0..68), per-sub-path fill
selection by `type`, and the final SVG template.  Thrown errors are
`Except.error`. -/
def noseBuild (colorOf : ℕ → String) (shadeF : String → ℚ → String)
    (rng : ℕ → ℚ) (fetch : Except String NoseJson) : Except String String :=
  match fetch with
  | .error e => .error e
  | .ok data =>
      if data.pathData = none ∧ data.paths = none then
        .error "Invalid or missing path data in noseOutline.json."
      else
        let viewBox := data.viewBox.getD "0 0 420 420"
        let baseIndex := (⌊rng 0 * 69⌋).toNat
        let baseHex := colorOf baseIndex
        let strokeHex := shadeF baseHex (-(22/100))
        let shadowHex := shadeF baseHex (-(10/100))
        let highlightHex := shadeF baseHex (10/100)
        let paths := data.paths.getD [⟨data.pathData, some "base"⟩]
        let svgPaths := String.join ((paths.map (fun p =>
          match p.pathData with
          | none => ""
          | some d =>
              let t := (p.ptype.getD "base").toLower
              let fill := if t = "shadow" then shadowHex
                else if t = "highlight" then highlightHex else baseHex
              "<path d=\"" ++ d ++ "\" style=\"fill:" ++ fill ++ " !important; stroke:"
                ++ strokeHex
                ++ "; stroke-width:0.45; vector-effect:non-scaling-stroke\" fill-rule=\"evenodd\"/>"
          )).filter (fun s => s ≠ ""))
        .ok ("<svg xmlns=\"http://www.w3.org/2000/svg\" width=\"420\" height=\"420\" viewBox=\""
          ++ viewBox ++ "\">" ++ svgPaths ++ "</svg>")

/-- The placeholder SVG the nose catch-block returns: the error text inside
a `<text>` element. -/
def nosePlaceholder (e : String) : String :=
  "<svg xmlns=\"http://www.w3.org/2000/svg\" width=\"420\" height=\"420\"> <text x=\"10\" y=\"20\">"
    ++ "Nose error: " ++ e ++ "</text> </svg>"

/-- The nose `generateTrait`: the try body, with the catch turning any
error into the placeholder SVG — it always resolves with a string. -/
def noseGenerateTrait (colorOf : ℕ → String) (shadeF : String → ℚ → String)
    (rng : ℕ → ℚ) (fetch : Except String NoseJson) : String :=
  match noseBuild colorOf shadeF rng fetch with
  | .ok s => s
  | .error e => nosePlaceholder e

/-- A wing layer outline descriptor. -/
structure WingJson where
  pathData : Option String
  viewBox : Option String
deriving DecidableEq

/-- The subtle same-shade-family gradient builder of the wings trait. -/
def wingsGrad (shadeF : String → ℚ → String) (id hex : String) : String :=
  "<linearGradient id=\"" ++ id ++ "\" x1=\"0%\" y1=\"0%\" x2=\"100%\" y2=\"100%\">"
    ++ "<stop offset=\"0%\" stop-color=\"" ++ shadeF hex (8/100) ++ "\" />"
    ++ "<stop offset=\"50%\" stop-color=\"" ++ hex ++ "\" />"
    ++ "<stop offset=\"100%\" stop-color=\"" ++ shadeF hex (-(8/100)) ++ "\" />"
    ++ "</linearGradient>"

/-- One wing layer group: drop shadow, gradient-filled glow path, and the
dot pattern (the DOM-dependent `buildPatternDots` is the `patternDots`
parameter). -/
def wingsLayer (patternDots : String → String → String → String)
    (cls pathData shift gradId viewBox hex : String) : String :=
  "<g class=\"wing-layer " ++ cls ++ "\">"
    ++ "<path d=\"" ++ pathData ++ "\" fill=\"#000\" opacity=\"0.22\" transform=\"translate("
      ++ shift ++ ")\"/>"
    ++ "<path d=\"" ++ pathData ++ "\" fill=\"url(#" ++ gradId
      ++ ")\" filter=\"url(#wings-glow)\"/>"
    ++ patternDots pathData viewBox hex
    ++ "</g>"

/-- The try-block body of the wings `generateTrait`: three fetches,
validation, one ambient palette draw, three shades of the base color, and
the assembled SVG. -/
def wingsBuild (colorOf : ℕ → String) (shadeF : String → ℚ → String)
    (patternDots : String → String → String → String) (rng : ℕ → ℚ)
    (fetchB fetchM fetchT : Except String WingJson) : Except String String :=
  match fetchB, fetchM, fetchT with
  | .error e, _, _ => .error e
  | _, .error e, _ => .error e
  | _, _, .error e => .error e
  | .ok bottomData, .ok middleData, .ok topData =>
      if topData.pathData = none ∨ middleData.pathData = none ∨
          bottomData.pathData = none then
        .error "Invalid or missing pathData in one or more wing layer files."
      else
        let viewBox := bottomData.viewBox.getD "0 0 420 420"
        let paletteIndex := (⌊rng 0 * 69⌋).toNat
        let baseHex := colorOf paletteIndex
        let topHex := shadeF baseHex (18/100)
        let middleHex := baseHex
        let bottomHex := shadeF baseHex (-(18/100))
        let bPath := bottomData.pathData.getD ""
        let mPath := middleData.pathData.getD ""
        let tPath := topData.pathData.getD ""
        .ok ("<svg xmlns=\"http://www.w3.org/2000/svg\" width=\"420\" height=\"420\" viewBox=\""
          ++ viewBox ++ "\">"
          ++ "<defs>"
          ++ wingsGrad shadeF "wings-grad-top" topHex
          ++ wingsGrad shadeF "wings-grad-middle" middleHex
          ++ wingsGrad shadeF "wings-grad-bottom" bottomHex
          ++ "<filter id=\"wings-glow\" x=\"-40%\" y=\"-40%\" width=\"180%\" height=\"180%\">"
          ++ "<feGaussianBlur in=\"SourceGraphic\" stdDeviation=\"2.5\" result=\"b\"/>"
          ++ "<feColorMatrix in=\"b\" type=\"matrix\" values=\"1 0 0 0 0 0 1 0 0 0 0 0 1 0 0 0 0 0 0.4 0\" result=\"c\"/>"
          ++ "<feMerge><feMergeNode in=\"c\"/><feMergeNode in=\"SourceGraphic\"/></feMerge>"
          ++ "</filter>"
          ++ "</defs>"
          ++ wingsLayer patternDots "wing-bottom" bPath "1.5,1.5" "wings-grad-bottom"
            viewBox bottomHex
          ++ wingsLayer patternDots "wing-middle" mPath "0.8,0.8" "wings-grad-middle"
            viewBox middleHex
          ++ wingsLayer patternDots "wing-top" tPath "0.3,0.3" "wings-grad-top"
            viewBox topHex
          ++ "</svg>")

/-- The placeholder SVG the wings catch-block returns. -/
def wingsPlaceholder (e : String) : String :=
  "<svg xmlns=\"http://www.w3.org/2000/svg\" width=\"420\" height=\"420\"> <text x=\"10\" y=\"20\">"
    ++ "Wings error: " ++ e ++ "</text> </svg>"

/-- The wings `generateTrait`: try body with catch-to-placeholder — always
resolves with a string. -/
def wingsGenerateTrait (colorOf : ℕ → String) (shadeF : String → ℚ → String)
    (patternDots : String → String → String → String) (rng : ℕ → ℚ)
    (fetchB fetchM fetchT : Except String WingJson) : String :=
  match wingsBuild colorOf shadeF patternDots rng fetchB fetchM fetchT with
  | .ok s => s
  | .error e => wingsPlaceholder e

/-- C10: the nose and wings generators never reject — on any internal
error (fetch failure, malformed descriptor) they resolve with a
placeholder SVG embedding the error text — so the orchestrator classifies
the layers as succeeded and includes the placeholder artifact in the
Composite instead of omitting them. -/
theorem c10_nose_wings_never_reject (colorOf : ℕ → String)
    (shadeF : String → ℚ → String) (patternDots : String → String → String → String)
    (rng : ℕ → ℚ) (fetchN : Except String NoseJson)
    (fetchB fetchM fetchT : Except String WingJson)
    (h : Bool) (gen : String → LayerOutcome) (ids : List String) :
    (∀ e, noseBuild colorOf shadeF rng fetchN = .error e →
        noseGenerateTrait colorOf shadeF rng fetchN = nosePlaceholder e ∧
        ("Nose error: ").data <:+: (noseGenerateTrait colorOf shadeF rng fetchN).data) ∧
    (∀ e, wingsBuild colorOf shadeF patternDots rng fetchB fetchM fetchT = .error e →
        wingsGenerateTrait colorOf shadeF patternDots rng fetchB fetchM fetchT =
          wingsPlaceholder e ∧
        ("Wings error: ").data <:+:
          (wingsGenerateTrait colorOf shadeF patternDots rng fetchB fetchM fetchT).data) ∧
    (gen "nose" = .ok (noseGenerateTrait colorOf shadeF rng fetchN) → "nose" ∈ ids →
        "nose" ∈ (generateLayers h gen ids).1.map Prod.fst) ∧
    (gen "wings" = .ok (wingsGenerateTrait colorOf shadeF patternDots rng
        fetchB fetchM fetchT) → "wings" ∈ ids →
        "wings" ∈ (generateLayers h gen ids).1.map Prod.fst) := by
  refine ⟨?_, ?_, ?_, ?_⟩
  · intro e herr
    have hval : noseGenerateTrait colorOf shadeF rng fetchN = nosePlaceholder e := by
      unfold noseGenerateTrait
      rw [herr]
    refine ⟨hval, ?_⟩
    rw [hval]
    unfold nosePlaceholder
    exact ⟨("<svg xmlns=\"http://www.w3.org/2000/svg\" width=\"420\" height=\"420\"> <text x=\"10\" y=\"20\">").data,
      (e ++ "</text> </svg>").data, by simp [String.data_append, List.append_assoc]⟩
  · intro e herr
    have hval : wingsGenerateTrait colorOf shadeF patternDots rng fetchB fetchM fetchT =
        wingsPlaceholder e := by
      unfold wingsGenerateTrait
      rw [herr]
    refine ⟨hval, ?_⟩
    rw [hval]
    unfold wingsPlaceholder
    exact ⟨("<svg xmlns=\"http://www.w3.org/2000/svg\" width=\"420\" height=\"420\"> <text x=\"10\" y=\"20\">").data,
      (e ++ "</text> </svg>").data, by simp [String.data_append, List.append_assoc]⟩
  · intro hok hin
    rw [generateLayers, genLoop_fst_map, List.mem_filter]
    constructor
    · unfold orderByCanonical
      rw [List.mem_filter]
      exact ⟨by decide, by simp only [List.contains, List.elem_iff]; exact hin⟩
    · simp only [Bool.and_eq_true]
      exact ⟨by decide, by simp [survives, hok]⟩
  · intro hok hin
    rw [generateLayers, genLoop_fst_map, List.mem_filter]
    constructor
    · unfold orderByCanonical
      rw [List.mem_filter]
      exact ⟨by decide, by simp only [List.contains, List.elem_iff]; exact hin⟩
    · simp only [Bool.and_eq_true]
      exact ⟨by decide, by simp [survives, hok]⟩

/-- Witness for C10: with every fetch failing, both generators return
their placeholder SVGs carrying the error text, and the orchestrator still
includes both layers in the Composite. -/
theorem c10_nose_wings_never_reject_witness :
    noseGenerateTrait (fun _ => "#000000") (fun s _ => s) (fun _ => 0)
        (.error "fetch failed") = nosePlaceholder "fetch failed" ∧
    ("Nose error: ").data <:+:
      (noseGenerateTrait (fun _ => "#000000") (fun s _ => s) (fun _ => 0)
        (.error "fetch failed")).data ∧
    wingsGenerateTrait (fun _ => "#000000") (fun s _ => s) (fun _ _ _ => "")
        (fun _ => 0) (.error "fetch failed") (.error "fetch failed")
        (.error "fetch failed") = wingsPlaceholder "fetch failed" ∧
    ("Wings error: ").data <:+:
      (wingsGenerateTrait (fun _ => "#000000") (fun s _ => s) (fun _ _ _ => "")
        (fun _ => 0) (.error "fetch failed") (.error "fetch failed")
        (.error "fetch failed")).data ∧
    "nose" ∈ (generateLayers true
      (fun id => if id = "nose" then
          .ok (noseGenerateTrait (fun _ => "#000000") (fun s _ => s) (fun _ => 0)
            (.error "fetch failed"))
        else if id = "wings" then
          .ok (wingsGenerateTrait (fun _ => "#000000") (fun s _ => s) (fun _ _ _ => "")
            (fun _ => 0) (.error "fetch failed") (.error "fetch failed")
            (.error "fetch failed"))
        else .err "x")
      ["nose", "wings"]).1.map Prod.fst ∧
    "wings" ∈ (generateLayers true
      (fun id => if id = "nose" then
          .ok (noseGenerateTrait (fun _ => "#000000") (fun s _ => s) (fun _ => 0)
            (.error "fetch failed"))
        else if id = "wings" then
          .ok (wingsGenerateTrait (fun _ => "#000000") (fun s _ => s) (fun _ _ _ => "")
            (fun _ => 0) (.error "fetch failed") (.error "fetch failed")
            (.error "fetch failed"))
        else .err "x")
      ["nose", "wings"]).1.map Prod.fst := by
  have H := c10_nose_wings_never_reject (fun _ => "#000000") (fun s _ => s)
    (fun _ _ _ => "") (fun _ => 0) (.error "fetch failed") (.error "fetch failed")
    (.error "fetch failed") (.error "fetch failed") true
    (fun id => if id = "nose" then
        .ok (noseGenerateTrait (fun _ => "#000000") (fun s _ => s) (fun _ => 0)
          (.error "fetch failed"))
      else if id = "wings" then
        .ok (wingsGenerateTrait (fun _ => "#000000") (fun s _ => s) (fun _ _ _ => "")
          (fun _ => 0) (.error "fetch failed") (.error "fetch failed")
          (.error "fetch failed"))
      else .err "x")
    ["nose", "wings"]
  obtain ⟨h1, h2, h3, h4⟩ := H
  obtain ⟨h1a, h1b⟩ := h1 "fetch failed" rfl
  obtain ⟨h2a, h2b⟩ := h2 "fetch failed" rfl
  exact ⟨h1a, h1b, h2a, h2b, h3 (by simp) (by decide), h4 (by simp) (by decide)⟩

end CreatePhil
